import Mathlib

/-!
Verification development for the patternlab-node incremental build orchestrator
(src/core/lib/patternlab.js).

The JavaScript module is shallowly embedded as pure Lean functions.  Side
effects (console logging, event emission, file-system writes, directory
clearing, process exit) are reified as an explicit `Effect` trace returned by
each operation, and mutable state (the `patternlab` context object) is threaded
explicitly.  External collaborators that live outside this repository
(pattern_assembler, pattern_graph, the template engines, fs, lodash) are either
supplied as function parameters in an `Env` record or, where a claim's meaning
depends on them, modelled from the specification (marked in doc comments).
-/

namespace PLab

/-- CompileState enumeration from object_factory (external module): a pattern is
CLEAN (output up to date), NEEDS_REBUILD, or transiently BUILDING. -/
inductive CompileState where
  | CLEAN
  | NEEDS_REBUILD
  | BUILDING
deriving DecidableEq, Repr

/-- Observable side effects of the orchestrator, in program order. A
`setCompileState` entry records the source's dual assignment
`patternlab.graph.node(pattern).compileState = pattern.compileState = s`,
which always writes the graph node and the Pattern object together.
`delegate` marks a call into an external collaborator whose internals are
outside this repository. -/
inductive Effect where
  | log (msg : String)
  | emit (eventName : String)
  | emptyDir (dir : String)
  | writeFile (filePath : String) (content : String)
  | exitProcess (code : Nat)
  | loadPattern (relPath : String)
  | processPattern (relPath : String) (knownPatterns : List String)
  | setCompileState (relPath : String) (state : CompileState)
  | registerListener (eventName : String)
  | invokeCallback
  | delegate (callee : String)
deriving DecidableEq, Repr

def Effect.isWriteFile : Effect → Bool
  | Effect.writeFile _ _ => true
  | _ => false

def Effect.isEmptyDir : Effect → Bool
  | Effect.emptyDir _ => true
  | _ => false

def Effect.isSetCompileState : Effect → Bool
  | Effect.setCompileState _ _ => true
  | _ => false

/-- A destination path plus rendered content (one output variant of a pattern). -/
structure OutputFile where
  path : String
  content : String
deriving DecidableEq, Repr

/-- Flat JSON-ish objects are association lists; lookup takes the first match. -/
abbrev DataMap := List (String × String)

/-- JS property assignment: m[k] = v. -/
def setKey (m : DataMap) (k v : String) : DataMap :=
  (k, v) :: m.filter (fun kv => kv.1 != k)

/-- lodash merge over flat objects: keys of b override keys of a. -/
def lodashMerge (a b : DataMap) : DataMap := b ++ a

/-- Object.assign of {}, a, b: keys of b override keys of a. -/
def objAssign (a b : DataMap) : DataMap := b ++ a

/-- JS delete of a property: all bindings of the key are removed. -/
def objDelete (m : DataMap) (k : String) : DataMap :=
  m.filter (fun kv => kv.1 != k)

/-- Rendering-engine capability record (pattern_engines is external): name,
three optional per-variant code formatters, and any engine-contributed extra
output files (the source calls `eng.addOutputFiles(paths, patternlab)`). -/
structure Engine where
  engineName : String := "mustache"
  renderedCodeFormatter : Option (String → String) := none
  rawTemplateCodeFormatter : Option (String → String) := none
  markupOnlyCodeFormatter : Option (String → String) := none
  addOutputFiles : List OutputFile := []

/-- The breadcrumb object in the pattern metadata JSON: only a patternType key
when the group equals the subgroup, otherwise patternType plus patternSubtype. -/
inductive Breadcrumb where
  | typeOnly (patternType : String)
  | typeAndSubtype (patternType : String) (patternSubtype : String)
deriving DecidableEq, Repr

/-- The object passed to JSON.stringify at patternlab.js lines 437-460
(pattern.patternData). The JSON text itself is produced by the platform's
JSON.stringify; its field content is what we verify. `patternPartialId`
renders the source field `patternPartial`. -/
structure PatternMetadata where
  cssEnabled : Bool
  patternLineageExists : Bool
  patternLineages : List String
  lineage : List String
  patternLineageRExists : Bool
  patternLineagesR : List String
  lineageR : List String
  patternLineageEExists : Bool
  patternDesc : String
  patternBreadcrumb : Breadcrumb
  patternExtension : String
  patternName : String
  patternPartialId : String
  patternState : String
  patternEngineName : String
  extraOutput : DataMap
deriving DecidableEq, Repr

/-- One discovered template fragment plus its metadata and rendering state
(object_factory's Pattern, restricted to the fields patternlab.js reads or
writes). Fields below `header` are populated during rendering. -/
structure Pattern where
  relPath : String
  isPattern : Bool := true
  compileState : CompileState := CompileState.NEEDS_REBUILD
  lineage : List String := []
  lineageR : List String := []
  jsonFileData : DataMap := []
  patternGroup : String := ""
  patternSubGroup : String := ""
  fileExtension : String := ".mustache"
  patternName : String := ""
  patternPartialId : String := ""
  patternState : String := ""
  patternDescExists : Bool := false
  patternDesc : String := ""
  template : String := ""
  extraOutput : DataMap := []
  allMarkdown : DataMap := []
  engine : Engine := {}
  header : String := ""
  patternPartialCode : String := ""
  patternLineages : List String := []
  patternLineageExists : Bool := false
  patternLineagesR : List String := []
  patternLineageRExists : Bool := false
  patternLineageEExists : Bool := false
  patternData : Option PatternMetadata := none

/-- Modelled from the spec: the dependency graph (pattern_graph is external)
keeps one node per pattern with a compile state, and carries a version stamp
persisted between runs. -/
structure Graph where
  nodes : List (String × CompileState)
  version : Nat
deriving DecidableEq, Repr

/-- Modelled from the spec: the current schema version of the persisted graph. -/
def CURRENT_GRAPH_VERSION : Nat := 1

/-- Modelled from the spec: empty graph construction (carries the current
schema version). -/
def Graph.empty : Graph := { nodes := [], version := CURRENT_GRAPH_VERSION }

/-- Modelled from the spec: version check of a loaded graph against the
current schema version. -/
def Graph.checkVersion (g : Graph) : Bool := g.version == CURRENT_GRAPH_VERSION

/-- Modelled from the spec: upgrading stamps the in-memory graph with the
current schema version (node states are untouched). -/
def Graph.upgradeVersion (g : Graph) : Graph :=
  { g with version := CURRENT_GRAPH_VERSION }

/-- Graph node compile-state write (the graph side of the source's dual
assignment). -/
def Graph.setNodeState (g : Graph) (n : String) (s : CompileState) : Graph :=
  { g with nodes := (n, s) :: g.nodes.filter (fun kv => kv.1 != n) }

/-- Graph node compile-state read. -/
def Graph.nodeState (g : Graph) (n : String) : Option CompileState :=
  (g.nodes.find? (fun kv => kv.1 == n)).map Prod.snd

/-- Modelled from the spec: structural sync against the current file set;
returns the pruned graph and the names of deleted/moved nodes. -/
def Graph.sync (g : Graph) (current : List String) : Graph × List String :=
  ({ g with nodes := g.nodes.filter (fun kv => current.contains kv.1) },
   (g.nodes.filter (fun kv => !current.contains kv.1)).map Prod.fst)

/-- Paths from patternlab-config.json consumed by the orchestrator. -/
structure Paths where
  sourceData : String := "source/_data/"
  sourceMeta : String := "source/_meta/"
  sourcePatterns : String := "source/_patterns/"
  publicPatterns : String := "public/patterns/"
deriving DecidableEq, Repr

/-- Configuration fields consumed by the orchestrator. -/
structure Config where
  cleanOutputHtml : Bool := true
  cacheBust : Bool := false
  debug : Bool := false
  exportToGraphViz : Bool := false
  paths : Paths := {}
deriving DecidableEq, Repr

/-- The patternlab context object: process-wide state of one build session,
plus the event-bus listener registry (`patternlab.events`). `listeners` is
the multiset of event names with a registered handler. -/
structure PatternLabState where
  isBusy : Bool := false
  listeners : List String := []
  patterns : List Pattern := []
  graph : Graph := Graph.empty
  data : DataMap := []
  cacheBuster : Nat := 0
  header : String := ""
  footer : String := ""
  patternSection : String := ""
  patternSectionSubType : String := ""
  viewAll : String := ""
  userHead : Option String := none
  userFoot : String := ""

/-- External collaborators and per-run inputs: the template engines and
pattern assembler render functions, js-beautify, the persisted graph content,
whether the various fallible reads succeed, the discovered pattern files, an
injection point for an exception raised by external code in the
post-discovery promise chain before the render loop (pipelineError), and a
per-pattern injection point for an uncaught exception thrown by the external
calls inside renderSinglePattern between the BUILDING and CLEAN assignments
(renderThrows, keyed by the pattern's relative path). -/
structure Env where
  renderString : String → DataMap → String
  renderBody : Pattern → DataMap → String
  renderFooterTpl : String → Bool → PatternMetadata → Nat → String
  cleanHtml : String → String
  getPatternLink : String → String → String
  jsonCopyFails : Bool := false
  storedGraph : Graph := Graph.empty
  dataOk : Bool := true
  globalData : DataMap := []
  listitemsOk : Bool := true
  structuralOk : Bool := true
  headerTpl : String := ""
  footerTpl : String := ""
  patternSectionTpl : String := ""
  patternSectionSubtypeTpl : String := ""
  viewAllTpl : String := ""
  headOk : Bool := true
  userHeadContent : String := ""
  footOk : Bool := true
  userFootContent : String := ""
  patternFiles : List Pattern := []
  pipelineError : Option String := none
  renderThrows : String → Option String := fun _ => none
  modifiedSince : String → Bool := fun _ => false
  now : Nat := 0

/-- path.join for output files. -/
def pathJoin (a b : String) : String := a ++ "/" ++ b

/-- buildPatternMetadata mirrors patternlab.js lines 431-460: the extraOutput
dump is Object.assign({}, pattern.extraOutput, pattern.allMarkdown) with the
title, state and markdown keys deleted, and the object handed to
JSON.stringify is built field by field from the pattern. -/
def buildPatternMetadata (pattern : Pattern) : PatternMetadata :=
  let extraOutput :=
    objDelete (objDelete (objDelete
      (objAssign pattern.extraOutput pattern.allMarkdown) "title") "state") "markdown"
  { cssEnabled := false
    patternLineageExists := pattern.patternLineageExists
    patternLineages := pattern.patternLineages
    lineage := pattern.patternLineages
    patternLineageRExists := pattern.patternLineageRExists
    patternLineagesR := pattern.patternLineagesR
    lineageR := pattern.patternLineagesR
    patternLineageEExists := pattern.patternLineageExists || pattern.patternLineageRExists
    patternDesc := if pattern.patternDescExists then pattern.patternDesc else ""
    patternBreadcrumb :=
      if pattern.patternGroup = pattern.patternSubGroup then
        Breadcrumb.typeOnly pattern.patternGroup
      else
        Breadcrumb.typeAndSubtype pattern.patternGroup pattern.patternSubGroup
    patternExtension := pattern.fileExtension.drop 1
    patternName := pattern.patternName
    patternPartialId := pattern.patternPartialId
    patternState := pattern.patternState
    patternEngineName := pattern.engine.engineName
    extraOutput := extraOutput }

/-- writePatternFiles mirrors patternlab.js lines 361-390: builds the
rendered / rawTemplate / markupOnly variants plus engine extras, formatting
each through the engine formatter (default pretty-printer as fallback) when
cleanOutputHtml is set, else writing verbatim. Returns the OutputFile list in
write order. -/
def writePatternFiles (env : Env) (cfg : Config) (headHTML : String)
    (pattern : Pattern) (footerHTML : String) : List OutputFile :=
  let nullFormatter : String → String := fun s => s
  let defaultFormatter : String → String := env.cleanHtml
  let makePath : String → String := fun t =>
    pathJoin cfg.paths.publicPatterns (env.getPatternLink pattern.relPath t)
  let patternPage := headHTML ++ pattern.patternPartialCode ++ footerHTML
  let eng := pattern.engine
  let fRendered :=
    if cfg.cleanOutputHtml then eng.renderedCodeFormatter.getD defaultFormatter
    else nullFormatter
  let fRawTemplate :=
    if cfg.cleanOutputHtml then eng.rawTemplateCodeFormatter.getD defaultFormatter
    else nullFormatter
  let fMarkupOnly :=
    if cfg.cleanOutputHtml then eng.markupOnlyCodeFormatter.getD defaultFormatter
    else nullFormatter
  [ { path := makePath "rendered", content := fRendered patternPage },
    { path := makePath "rawTemplate", content := fRawTemplate pattern.template },
    { path := makePath "markupOnly", content := fMarkupOnly pattern.patternPartialCode } ]
  ++ eng.addOutputFiles

/-- renderSinglePattern mirrors patternlab.js lines 392-492 for a run in
which the uncaught external calls between the BUILDING assignment (line 399)
and the CLEAN assignment (line 489) - the renders at lines 423/426/463/479,
the event emissions, and the synchronous file writes - all return normally.
Returns whether a render occurred, the updated context, the updated Pattern,
and the effect trace. The early return at lines 394-396 skips non-patterns
and CLEAN patterns; otherwise state goes to BUILDING on graph node and
Pattern together, head, body, metadata and footer are rendered, the output
variants are written between the write-begin and write-end events, and state
ends CLEAN on both. The escape path of an exception thrown by one of those
external calls is modelled by renderSinglePatternThrow and
renderSinglePatternAborted below and propagated by renderAll. -/
def renderSinglePattern (env : Env) (cfg : Config) (pl : PatternLabState)
    (pattern0 : Pattern) (head : String) :
    Bool × PatternLabState × Pattern × List Effect :=
  if pattern0.isPattern = false ∨ pattern0.compileState = CompileState.CLEAN then
    (false, pl, pattern0, [])
  else
    let pl1 := { pl with
      graph := pl.graph.setNodeState pattern0.relPath CompileState.BUILDING }
    let p1 := { pattern0 with
      compileState := CompileState.BUILDING,
      patternLineages := pattern0.lineage,
      patternLineageExists := decide (0 < pattern0.lineage.length),
      patternLineagesR := pattern0.lineageR,
      patternLineageRExists := decide (0 < pattern0.lineageR.length) }
    let p2 := { p1 with
      patternLineageEExists := p1.patternLineageExists || p1.patternLineageRExists }
    let effsState : List Effect :=
      [Effect.setCompileState pattern0.relPath CompileState.BUILDING,
       Effect.emit "patternlab-pattern-before-data-merge"]
    let allData0 : DataMap := if env.jsonCopyFails then [] else pl.data
    let effsCopy : List Effect :=
      if env.jsonCopyFails then
        [Effect.log ("There was an error parsing JSON for " ++ pattern0.relPath)]
      else []
    let allData := setKey (lodashMerge allData0 p2.jsonFileData)
      "cacheBuster" (toString pl.cacheBuster)
    let p3 := { p2 with header := head }
    let headHTML := env.renderString p3.header allData
    let p4 := { p3 with patternPartialCode := env.renderBody p3 allData }
    let metadata := buildPatternMetadata p4
    let p5 := { p4 with patternData := some metadata }
    let footerPartialHtml := env.renderFooterTpl pl.footer p5.isPattern metadata pl.cacheBuster
    let allFooterData0 : DataMap := if env.jsonCopyFails then [] else pl.data
    let effsCopy2 : List Effect :=
      if env.jsonCopyFails then
        [Effect.log ("There was an error parsing JSON for " ++ pattern0.relPath)]
      else []
    let allFooterData := setKey (lodashMerge allFooterData0 p5.jsonFileData)
      "patternLabFoot" footerPartialHtml
    let footerHTML := env.renderString pl.userFoot allFooterData
    let files := writePatternFiles env cfg headHTML p5 footerHTML
    let writeEffs := files.map (fun f => Effect.writeFile f.path f.content)
    let pl2 := { pl1 with
      graph := pl1.graph.setNodeState pattern0.relPath CompileState.CLEAN }
    let p6 := { p5 with compileState := CompileState.CLEAN }
    (true, pl2, p6,
      effsState ++ effsCopy ++ effsCopy2 ++
      [Effect.emit "patternlab-pattern-write-begin"] ++ writeEffs ++
      [Effect.emit "patternlab-pattern-write-end",
       Effect.setCompileState pattern0.relPath CompileState.CLEAN,
       Effect.log ("Built pattern: " ++ pattern0.patternPartialId)])

/-- Whether the render of this pattern raises an uncaught exception. The
guard at lines 394-396 returns before any external call, so a skipped
pattern cannot throw; otherwise the environment decides whether one of the
uncaught external calls of renderSinglePattern throws for this pattern, and
with what message. -/
def renderSinglePatternThrow (env : Env) (pattern0 : Pattern) : Option String :=
  if pattern0.isPattern = false ∨ pattern0.compileState = CompileState.CLEAN then
    none
  else env.renderThrows pattern0.relPath

/-- The context, pattern and trace at the moment an uncaught exception (for
example from the template engine inside pattern_assembler.renderPattern at
line 426) escapes renderSinglePattern: the BUILDING dual assignment at line
399 has already happened on the graph node and on the Pattern, the
before-data-merge event has fired, and neither any output write nor the
CLEAN assignment at line 489 was reached - the pattern is left BUILDING. -/
def renderSinglePatternAborted (env : Env) (pl : PatternLabState)
    (pattern0 : Pattern) (head : String) :
    PatternLabState × Pattern × List Effect :=
  let pl1 := { pl with
    graph := pl.graph.setNodeState pattern0.relPath CompileState.BUILDING }
  let p1 := { pattern0 with
    compileState := CompileState.BUILDING,
    patternLineages := pattern0.lineage,
    patternLineageExists := decide (0 < pattern0.lineage.length),
    patternLineagesR := pattern0.lineageR,
    patternLineageRExists := decide (0 < pattern0.lineageR.length) }
  let p2 := { p1 with
    patternLineageEExists := p1.patternLineageExists || p1.patternLineageRExists }
  let p3 := { p2 with header := head }
  (pl1, p3,
   [Effect.setCompileState pattern0.relPath CompileState.BUILDING,
    Effect.emit "patternlab-pattern-before-data-merge"] ++
   (if env.jsonCopyFails then
      [Effect.log ("There was an error parsing JSON for " ++ pattern0.relPath)]
    else []))

/-- The render loop at patternlab.js line 642:
patternsToBuild.forEach(pattern => renderSinglePattern(pattern, head)).
The context and the (in JS, shared-by-reference) pattern objects are threaded
explicitly. An exception escaping renderSinglePattern propagates out of the
forEach at once: rendering stops, the throwing pattern is left in its aborted
state, the remaining patterns are untouched, and the exception (the fourth
component) travels up to the catch at line 653. -/
def renderAll (env : Env) (cfg : Config) (head : String) :
    PatternLabState → List Pattern →
      PatternLabState × List Pattern × List Effect × Option String
  | pl, [] => (pl, [], [], none)
  | pl, p :: ps =>
    match renderSinglePatternThrow env p with
    | some msg =>
      let ab := renderSinglePatternAborted env pl p head
      (ab.1, ab.2.1 :: ps, ab.2.2, some msg)
    | none =>
      let step := renderSinglePattern env cfg pl p head
      let rest := renderAll env cfg head step.2.1 ps
      (rest.1, step.2.2.1 :: rest.2.1, step.2.2.2 ++ rest.2.2.1, rest.2.2.2)

/-- Phase 1 loading: the async dive walk invokes
pattern_assembler.load_pattern_iterative synchronously per discovered file,
registering each Pattern in the context; the walk completion resolves the
enclosing promise. -/
def loadPhase : List Pattern → PatternLabState → PatternLabState × List Effect
  | [], pl => (pl, [])
  | f :: fs, pl =>
    let rest := loadPhase fs { pl with patterns := pl.patterns ++ [f] }
    (rest.1, Effect.loadPattern f.relPath :: rest.2)

/-- Phase 1 processing: after the walk completes, Promise.all over
pattern_assembler.process_pattern_iterative for every loaded pattern; each
invocation sees the pattern collection as it stands then (recorded in the
effect). -/
def processPhase (pl : PatternLabState) : PatternLabState × List Effect :=
  (pl, pl.patterns.map (fun p =>
    Effect.processPattern p.relPath (pl.patterns.map (fun q => q.relPath))))

/-- processAllPatternsIterative mirrors patternlab.js lines 71-107: the load
promise resolves when the whole directory walk is done, and only then does the
chained .then run the process step over every loaded pattern; the trace
concatenation reflects that promise sequencing. -/
def processAllPatternsIterative (files : List Pattern) (pl : PatternLabState) :
    PatternLabState × List Effect :=
  let loaded := loadPhase files pl
  let processed := processPhase loaded.1
  (processed.1, loaded.2 ++ processed.2)

/-- loadPatternGraph mirrors patternlab.js lines 504-510: an empty graph when
the pattern directory is to be deleted, else the persisted graph. -/
def loadPatternGraph (env : Env) (deletePatternDir : Bool) : Graph :=
  if deletePatternDir then Graph.empty else env.storedGraph

/-- graphNeedsUpgrade := not(PatternGraph.checkVersion(graph)) at line 526. -/
def graphNeedsUpgrade (env : Env) (deletePatternDir : Bool) : Bool :=
  !((loadPatternGraph env deletePatternDir).checkVersion)

/-- incrementalBuildsEnabled := not(deletePatternDir or graphNeedsUpgrade) at
line 537. -/
def incrementalBuildsEnabled (env : Env) (deletePatternDir : Bool) : Bool :=
  !(deletePatternDir || graphNeedsUpgrade env deletePatternDir)

/-- Full-rebuild marking at patternlab.js lines 635-638: every pattern is set
to NEEDS_REBUILD. -/
def markAllForRebuild (ps : List Pattern) : List Pattern :=
  ps.map (fun p => { p with compileState := CompileState.NEEDS_REBUILD })

/-- Modelled from the spec: pattern_assembler.mark_modified_patterns (external)
marks every pattern modified since the last run as NEEDS_REBUILD. -/
def mark_modified_patterns (modified : String → Bool) (ps : List Pattern) :
    List Pattern :=
  ps.map (fun p =>
    if modified p.relPath then { p with compileState := CompileState.NEEDS_REBUILD }
    else p)

/-- Modelled from the spec: graph.compileOrder() (external) returns a
dependency-respecting sequence of the patterns to compile. The ordering and
the restriction to dirty nodes are internal to pattern_graph; since
renderSinglePattern itself skips CLEAN patterns and no claim here depends on
the relative order, the model returns the marked collection as is. -/
def compileOrder (ps : List Pattern) : List Pattern := ps

/-- The render set chosen at patternlab.js lines 622-639: incremental builds
mark modified patterns and ask the graph for a compile order; otherwise every
pattern is marked NEEDS_REBUILD and the full collection is rebuilt. -/
def renderSetForBuild (env : Env) (incr : Bool) (ps : List Pattern) : List Pattern :=
  if incr then compileOrder (mark_modified_patterns env.modifiedSince ps)
  else markAllForRebuild ps

/-- Outcome of a build entry: the returned promise resolved, or process.exit
terminated the process (in which case no promise ever settles). Note the
.catch at line 653 turns any pipeline rejection into a resolution, so a
settled buildPatterns promise is always a resolution. -/
inductive BuildOutcome where
  | resolved
  | exited (code : Nat)
deriving DecidableEq, Repr

def busyMsg : String := "Pattern Lab is busy building a previous run - returning early."

def upgradeMsg : String :=
  "Due to an upgrade, a complete rebuild is required and the public/patterns directory was deleted. Incremental build is available again on the next successful run."

def missingDataMsg : String :=
  "missing or malformed data.json  Pattern Lab may not work without this file."

def missingListitemsMsg : String :=
  "WARNING: missing or malformed listitems file.  Pattern Lab may not work without this file."

def essentialFileMsg : String :=
  "ERROR: missing an essential file from patternlabFiles. Pattern Lab will not work without this file."

def headMissingMsg : String :=
  "WARNING: Could not find the user-editable header template, currently configured to be at paths.source.meta _00-head.mustache."

def footMissingMsg : String :=
  "WARNING: Could not find the user-editable footer template, currently configured to be at paths.source.meta _01-foot.mustache."

def catchPrefixMsg : String := "Error in buildPatterns(): "

/-- Effects of the upgrade notice at lines 528-534. -/
def upgradeEffects (env : Env) (deletePatternDir : Bool) : List Effect :=
  if graphNeedsUpgrade env deletePatternDir then [Effect.log upgradeMsg] else []

/-- Effects of the incremental decision at lines 539-544: a log when
incremental builds are enabled, else clearing the public patterns directory
before any pattern is processed. -/
def incrEffects (env : Env) (cfg : Config) (deletePatternDir : Bool) : List Effect :=
  if incrementalBuildsEnabled env deletePatternDir then
    [Effect.log "Incremental builds enabled."]
  else
    [Effect.emptyDir cfg.paths.publicPatterns]

/-- Effects of the global-data load at lines 546-551. -/
def dataEffects (env : Env) : List Effect :=
  if env.dataOk then [] else [Effect.log missingDataMsg]

/-- Effects of the listitems load at lines 552-557. -/
def listitemsEffects (env : Env) : List Effect :=
  if env.listitemsOk then [] else [Effect.log missingListitemsMsg]

/-- Trace of everything in buildPatterns before the structural-template read:
the build-start event, the upgrade notice, the incremental log or the
directory clearing, and the data/listitems warnings. -/
def buildPreEffects (env : Env) (cfg : Config) (deletePatternDir : Bool) : List Effect :=
  Effect.emit "patternlab-build-pattern-start" ::
    (upgradeEffects env deletePatternDir ++ incrEffects env cfg deletePatternDir ++
     dataEffects env ++ listitemsEffects env)

/-- processHeadPattern / processFootPattern (lines 324-359) and the rest of
the promise chain, plus everything in buildPatterns after buildPreEffects.
Returns the outcome, the final context and the trace after the pre effects.
An exception escaping the render loop at line 642 skips the graph save and
export steps and reaches the catch at line 653, which logs it and resolves;
the patterns keep the states they had when the loop aborted. -/
def buildAfterPre (env : Env) (cfg : Config) (deletePatternDir : Bool)
    (pl : PatternLabState) : BuildOutcome × PatternLabState × List Effect :=
  let graph1 :=
    if graphNeedsUpgrade env deletePatternDir then
      (loadPatternGraph env deletePatternDir).upgradeVersion
    else loadPatternGraph env deletePatternDir
  let data0 : DataMap := if env.dataOk then env.globalData else []
  if env.structuralOk = false then
    (BuildOutcome.exited 1,
     { pl with graph := graph1, data := data0 },
     [Effect.log essentialFileMsg, Effect.exitProcess 1])
  else
    let pl1 : PatternLabState := { pl with
      graph := graph1, data := data0,
      header := env.headerTpl, footer := env.footerTpl,
      patternSection := env.patternSectionTpl,
      patternSectionSubType := env.patternSectionSubtypeTpl,
      viewAll := env.viewAllTpl,
      patterns := [],
      cacheBuster := if cfg.cacheBust then env.now else 0 }
    let preTail : List Effect :=
      [Effect.delegate "combine_listItems",
       Effect.emit "patternlab-build-global-data-end"]
    let disc := processAllPatternsIterative env.patternFiles pl1
    match env.pipelineError with
    | some msg =>
      (BuildOutcome.resolved, disc.1,
       preTail ++ disc.2 ++ [Effect.log (catchPrefixMsg ++ msg)])
    | none =>
      let afterIter : List Effect :=
        [Effect.emit "patternlab-pattern-iteration-end",
         Effect.delegate "parse_data_links"] ++
        env.patternFiles.map (fun p =>
          Effect.delegate ("process_pattern_recursive " ++ p.relPath))
      if env.headOk = false then
        (BuildOutcome.exited 1, disc.1,
         preTail ++ disc.2 ++ afterIter ++
         [Effect.log headMissingMsg, Effect.exitProcess 1])
      else
        let pl3 := { disc.1 with userHead := some env.userHeadContent }
        if env.footOk = false then
          (BuildOutcome.exited 1, pl3,
           preTail ++ disc.2 ++ afterIter ++
           [Effect.log footMissingMsg, Effect.exitProcess 1])
        else
          let pl4 := { pl3 with userFoot := env.userFootContent }
          let cascadeEffs := afterIter ++ [Effect.delegate "cascade_pattern_states"]
          let head := match pl4.userHead with
            | some h => h
            | none => pl4.header
          let headFragment :=
            env.renderString pl4.header [("cacheBuster", toString pl4.cacheBuster)]
          let pl5 := { pl4 with data := setKey pl4.data "patternLabHead" headFragment }
          let incr := incrementalBuildsEnabled env deletePatternDir
          let s := pl5.graph.sync (pl5.patterns.map (fun p => p.relPath))
          let graph6 := if incr then s.1 else pl5.graph
          let syncLogs : List Effect :=
            if incr then s.2.map (fun n => Effect.log ("[Deleted/Moved] " ++ n))
            else []
          let toBuild := renderSetForBuild env incr pl5.patterns
          let pl6 := { pl5 with graph := graph6, patterns := toBuild }
          let rendered := renderAll env cfg head pl6 toBuild
          let pl8 := { rendered.1 with patterns := rendered.2.1 }
          let tailEffs : List Effect :=
            match rendered.2.2.2 with
            | some msg => [Effect.log (catchPrefixMsg ++ msg)]
            | none =>
              [Effect.delegate "PatternGraph.storeToFile"] ++
              (if cfg.exportToGraphViz then
                 [Effect.delegate "PatternGraph.exportToDot",
                  Effect.log "Exported pattern graph"]
               else []) ++
              [Effect.delegate "export_patterns"]
          (BuildOutcome.resolved, pl8,
           preTail ++ disc.2 ++ cascadeEffs ++ syncLogs ++ rendered.2.2.1 ++ tailEffs)

/-- buildPatterns mirrors patternlab.js lines 512-656: the synchronous prefix
(graph load and version check, incremental decision, data and template loads)
followed by the discovery promise and its .then pipeline; the .catch at line
653 logs any pipeline error and resolves. -/
def buildPatterns (env : Env) (cfg : Config) (deletePatternDir : Bool)
    (pl : PatternLabState) : BuildOutcome × PatternLabState × List Effect :=
  let t := buildAfterPre env cfg deletePatternDir pl
  (t.1, t.2.1, buildPreEffects env cfg deletePatternDir ++ t.2.2)

/-- The public build entry at patternlab.js lines 684-715: busy guard, then
buildPatterns, then frontend build, asset copy, registration of the two
rebuild listeners, debug dump, busy-flag clear and the user callback. -/
def build (env : Env) (cfg : Config) (pl : PatternLabState) (cleanPublic : Bool) :
    BuildOutcome × PatternLabState × List Effect :=
  if pl.isBusy then
    (BuildOutcome.resolved, pl, [Effect.log busyMsg])
  else
    let pl1 := { pl with isBusy := true }
    let b := buildPatterns env cfg cleanPublic pl1
    match b.1 with
    | BuildOutcome.exited c => (BuildOutcome.exited c, b.2.1, b.2.2)
    | BuildOutcome.resolved =>
      let pl3 := { b.2.1 with
        listeners := b.2.1.listeners ++
          ["patternlab-pattern-change", "patternlab-global-change"],
        isBusy := false }
      (BuildOutcome.resolved, pl3,
       b.2.2 ++
       [Effect.delegate "ui_builder.buildFrontend",
        Effect.delegate "assetCopier.copyAssets",
        Effect.registerListener "patternlab-pattern-change",
        Effect.registerListener "patternlab-global-change",
        Effect.delegate "printDebug",
        Effect.invokeCallback])

/-- The patternsonly entry at patternlab.js lines 733-744: busy guard, then
buildPatterns, debug dump, busy-flag clear and the user callback. -/
def patternsonly (env : Env) (cfg : Config) (pl : PatternLabState)
    (cleanPublic : Bool) : BuildOutcome × PatternLabState × List Effect :=
  if pl.isBusy then
    (BuildOutcome.resolved, pl, [Effect.log busyMsg])
  else
    let pl1 := { pl with isBusy := true }
    let b := buildPatterns env cfg cleanPublic pl1
    match b.1 with
    | BuildOutcome.exited c => (BuildOutcome.exited c, b.2.1, b.2.2)
    | BuildOutcome.resolved =>
      (BuildOutcome.resolved, { b.2.1 with isBusy := false },
       b.2.2 ++ [Effect.delegate "printDebug", Effect.invokeCallback])

/-- Iterated invocation of the public build entry, as the watch loop does. -/
def buildN (env : Env) (cfg : Config) (cleanPublic : Bool) :
    Nat → PatternLabState → PatternLabState
  | 0, pl => pl
  | n + 1, pl => buildN env cfg cleanPublic n (build env cfg pl cleanPublic).2.1

/-- Number of handlers the event bus fires for one occurrence of an event. -/
def listenerCount (pl : PatternLabState) (eventName : String) : Nat :=
  pl.listeners.count eventName

/-- A trace prefix clears the directory before the first file write. -/
def clearedBeforeWrites (l : List Effect) (dir : String) : Prop :=
  ∃ pre post, l = pre ++ Effect.emptyDir dir :: post ∧
    ∀ e ∈ pre, e.isWriteFile = false

/-- All effects of a trace satisfy a predicate. -/
def allEffects (P : Effect → Prop) (l : List Effect) : Prop := ∀ e ∈ l, P e

/-- An effect that neither writes a pattern output file nor transitions a
compile state: nothing of the render pipeline has run. -/
def isNotRender (e : Effect) : Prop :=
  e.isWriteFile = false ∧ e.isSetCompileState = false

/-- Concrete inputs used by the witness theorems. -/
def exPattern : Pattern :=
  { relPath := "atoms/button.mustache"
    patternGroup := "atoms"
    patternSubGroup := "atoms"
    fileExtension := ".mustache"
    patternName := "Button"
    patternPartialId := "atoms-button"
    patternState := "inprogress"
    extraOutput := [("title", "T"), ("x", "1")]
    allMarkdown := [("markdown", "M"), ("state", "S")] }

def exCleanPattern : Pattern := { exPattern with compileState := CompileState.CLEAN }

def exEnv : Env :=
  { renderString := fun _ _ => ""
    renderBody := fun _ _ => ""
    renderFooterTpl := fun _ _ _ _ => ""
    cleanHtml := fun s => s
    getPatternLink := fun r t => r ++ "." ++ t
    patternFiles := [exPattern] }

def exEnvBoom : Env := { exEnv with pipelineError := some "boom" }

def exEnvOldGraph : Env := { exEnv with storedGraph := { nodes := [], version := 0 } }

def exEnvNoStructural : Env := { exEnv with structuralOk := false }

def exEnvNoHead : Env := { exEnv with headOk := false }

def exEnvNoFoot : Env := { exEnv with footOk := false }

def exEnvRenderThrow : Env :=
  { exEnv with
    renderThrows := fun r =>
      if r = "atoms/button.mustache" then some "render failed" else none }

def exCfg : Config := {}

def exState : PatternLabState := {}

def exBusyState : PatternLabState := { isBusy := true }

section TraceLemmas

theorem allEffects_nil {P : Effect → Prop} : allEffects P [] := by
  intro e he
  simp at he

theorem allEffects_cons {P : Effect → Prop} {x : Effect} {l : List Effect}
    (hx : P x) (hl : allEffects P l) : allEffects P (x :: l) := by
  intro e he
  rcases List.mem_cons.mp he with h | h
  · exact h ▸ hx
  · exact hl e h

theorem allEffects_append {P : Effect → Prop} {a b : List Effect}
    (ha : allEffects P a) (hb : allEffects P b) : allEffects P (a ++ b) := by
  intro e he
  rcases List.mem_append.mp he with h | h
  · exact ha e h
  · exact hb e h

theorem allEffects_map {α : Type} {P : Effect → Prop} (f : α → Effect)
    (h : ∀ x, P (f x)) (l : List α) : allEffects P (l.map f) := by
  intro e he
  rcases List.mem_map.mp he with ⟨x, _, rfl⟩
  exact h x

theorem allEffects_singleton {P : Effect → Prop} {x : Effect} (hx : P x) :
    allEffects P [x] :=
  allEffects_cons hx allEffects_nil

end TraceLemmas

section RenderLemmas

/-- The value renderSinglePattern yields for a renderable pattern; spelled out
once so every lemma below can rewrite with a single equation. -/
theorem renderSinglePattern_skip (env : Env) (cfg : Config) (pl : PatternLabState)
    (p : Pattern) (head : String)
    (h : p.isPattern = false ∨ p.compileState = CompileState.CLEAN) :
    renderSinglePattern env cfg pl p head = (false, pl, p, []) := by
  unfold renderSinglePattern
  rw [if_pos h]

theorem renderSinglePattern_fst (env : Env) (cfg : Config) (pl : PatternLabState)
    (p : Pattern) (head : String)
    (h : ¬(p.isPattern = false ∨ p.compileState = CompileState.CLEAN)) :
    (renderSinglePattern env cfg pl p head).1 = true := by
  unfold renderSinglePattern
  rw [if_neg h]

theorem renderSinglePattern_state (env : Env) (cfg : Config) (pl : PatternLabState)
    (p : Pattern) (head : String)
    (h : ¬(p.isPattern = false ∨ p.compileState = CompileState.CLEAN)) :
    (renderSinglePattern env cfg pl p head).2.2.1.compileState = CompileState.CLEAN := by
  unfold renderSinglePattern
  rw [if_neg h]

theorem renderSinglePattern_state_cases (env : Env) (cfg : Config)
    (pl : PatternLabState) (p : Pattern) (head : String) :
    (renderSinglePattern env cfg pl p head).2.2.1.compileState = p.compileState ∨
    (renderSinglePattern env cfg pl p head).2.2.1.compileState = CompileState.CLEAN := by
  by_cases h : p.isPattern = false ∨ p.compileState = CompileState.CLEAN
  · left
    rw [renderSinglePattern_skip env cfg pl p head h]
  · right
    exact renderSinglePattern_state env cfg pl p head h

theorem renderSinglePattern_listeners (env : Env) (cfg : Config)
    (pl : PatternLabState) (p : Pattern) (head : String) :
    (renderSinglePattern env cfg pl p head).2.1.listeners = pl.listeners := by
  by_cases h : p.isPattern = false ∨ p.compileState = CompileState.CLEAN
  · rw [renderSinglePattern_skip env cfg pl p head h]
  · unfold renderSinglePattern
    rw [if_neg h]

theorem renderSinglePattern_trace_noEmptyDir (env : Env) (cfg : Config)
    (pl : PatternLabState) (p : Pattern) (head : String) :
    allEffects (fun e => e.isEmptyDir = false)
      (renderSinglePattern env cfg pl p head).2.2.2 := by
  by_cases h : p.isPattern = false ∨ p.compileState = CompileState.CLEAN
  · rw [renderSinglePattern_skip env cfg pl p head h]
    exact allEffects_nil
  · simp only [renderSinglePattern, if_neg h]
    refine allEffects_append (allEffects_append (allEffects_append
      (allEffects_append (allEffects_append ?_ ?_) ?_) ?_) ?_) ?_
    · exact allEffects_cons rfl (allEffects_cons rfl allEffects_nil)
    · split
      · exact allEffects_cons rfl allEffects_nil
      · exact allEffects_nil
    · split
      · exact allEffects_cons rfl allEffects_nil
      · exact allEffects_nil
    · exact allEffects_cons rfl allEffects_nil
    · refine allEffects_map _ (fun f => ?_) _
      rfl
    · exact allEffects_cons rfl (allEffects_cons rfl (allEffects_cons rfl allEffects_nil))

theorem Graph.nodeState_set (g : Graph) (n : String) (s : CompileState) :
    (g.setNodeState n s).nodeState n = some s := by
  simp [Graph.setNodeState, Graph.nodeState, List.find?]

theorem renderSinglePattern_graph (env : Env) (cfg : Config)
    (pl : PatternLabState) (p : Pattern) (head : String)
    (h : ¬(p.isPattern = false ∨ p.compileState = CompileState.CLEAN)) :
    (renderSinglePattern env cfg pl p head).2.1.graph.nodeState p.relPath =
      some CompileState.CLEAN := by
  simp only [renderSinglePattern, if_neg h]
  exact Graph.nodeState_set _ _ _

theorem renderSinglePattern_trace_head (env : Env) (cfg : Config)
    (pl : PatternLabState) (p : Pattern) (head : String)
    (h : ¬(p.isPattern = false ∨ p.compileState = CompileState.CLEAN)) :
    (renderSinglePattern env cfg pl p head).2.2.2.head? =
      some (Effect.setCompileState p.relPath CompileState.BUILDING) := by
  simp only [renderSinglePattern, if_neg h]
  rfl

theorem renderSinglePattern_trace_cleanSet (env : Env) (cfg : Config)
    (pl : PatternLabState) (p : Pattern) (head : String)
    (h : ¬(p.isPattern = false ∨ p.compileState = CompileState.CLEAN)) :
    Effect.setCompileState p.relPath CompileState.CLEAN ∈
      (renderSinglePattern env cfg pl p head).2.2.2 := by
  simp only [renderSinglePattern, if_neg h]
  simp [List.mem_append]

end RenderLemmas

/-- C4: for every pattern whose isPattern flag is false (e.g. a meta pattern)
or whose compileState is CLEAN, renderSinglePattern returns false and is a
no-op: same context, same pattern, no events, no writes (empty effect trace);
consequently a pattern that has just been rendered (now CLEAN) is skipped if
visited again, so no pattern is rendered more than once per build pass. -/
theorem renderSinglePattern_skip_noop_and_once
    (env : Env) (cfg : Config) (pl pl2 pl3 : PatternLabState)
    (p q : Pattern) (head head2 head3 : String)
    (h : p.isPattern = false ∨ p.compileState = CompileState.CLEAN) :
    renderSinglePattern env cfg pl p head = (false, pl, p, []) ∧
    ((renderSinglePattern env cfg pl2 q head2).1 = true →
      renderSinglePattern env cfg pl3
          (renderSinglePattern env cfg pl2 q head2).2.2.1 head3 =
        (false, pl3, (renderSinglePattern env cfg pl2 q head2).2.2.1, [])) := by
  constructor
  · exact renderSinglePattern_skip env cfg pl p head h
  · intro hq
    by_cases hg : q.isPattern = false ∨ q.compileState = CompileState.CLEAN
    · rw [renderSinglePattern_skip env cfg pl2 q head2 hg] at hq
      simp at hq
    · exact renderSinglePattern_skip env cfg pl3 _ head3
        (Or.inr (renderSinglePattern_state env cfg pl2 q head2 hg))

/-- Witness for C4 at a concrete CLEAN pattern. -/
theorem renderSinglePattern_skip_noop_and_once_witness :
    renderSinglePattern exEnv exCfg exState exCleanPattern "h" =
      (false, exState, exCleanPattern, []) :=
  (renderSinglePattern_skip_noop_and_once exEnv exCfg exState exState exState
    exCleanPattern exCleanPattern "h" "h" "h" (Or.inr rfl)).1

theorem objDelete_not_mem (m : DataMap) (k : String) :
    ∀ kv ∈ objDelete m k, kv.1 ≠ k := by
  intro kv h
  have hk := (List.mem_filter.mp h).2
  simpa using hk

theorem objDelete_subset (m : DataMap) (k : String) :
    ∀ kv ∈ objDelete m k, kv ∈ m := by
  intro kv h
  exact (List.mem_filter.mp h).1

/-- C7: the metadata JSON object built by renderSinglePattern has
cssEnabled = false, duplicates the forward and reverse lineage lists under
the legacy and current field names, collapses the breadcrumb to a single
patternType key exactly when the group equals the subgroup, strips the
leading character (the dot) from the file extension, and its extraOutput
never contains the title, state or markdown keys; and a successful render
stores exactly such a metadata object on the pattern. -/
theorem patternMetadata_contract (env : Env) (cfg : Config)
    (pl : PatternLabState) (p : Pattern) (head : String) :
    (buildPatternMetadata p).cssEnabled = false ∧
    (buildPatternMetadata p).lineage = (buildPatternMetadata p).patternLineages ∧
    (buildPatternMetadata p).lineageR = (buildPatternMetadata p).patternLineagesR ∧
    (p.patternGroup = p.patternSubGroup →
      (buildPatternMetadata p).patternBreadcrumb =
        Breadcrumb.typeOnly p.patternGroup) ∧
    (p.patternGroup ≠ p.patternSubGroup →
      (buildPatternMetadata p).patternBreadcrumb =
        Breadcrumb.typeAndSubtype p.patternGroup p.patternSubGroup) ∧
    (buildPatternMetadata p).patternExtension = p.fileExtension.drop 1 ∧
    (∀ kv ∈ (buildPatternMetadata p).extraOutput,
      kv.1 ≠ "title" ∧ kv.1 ≠ "state" ∧ kv.1 ≠ "markdown") ∧
    ((renderSinglePattern env cfg pl p head).1 = true →
      ∃ q : Pattern,
        (renderSinglePattern env cfg pl p head).2.2.1.patternData =
          some (buildPatternMetadata q) ∧
        q.patternGroup = p.patternGroup ∧ q.patternSubGroup = p.patternSubGroup ∧
        q.fileExtension = p.fileExtension ∧ q.extraOutput = p.extraOutput ∧
        q.allMarkdown = p.allMarkdown) := by
  refine ⟨rfl, rfl, rfl, ?_, ?_, rfl, ?_, ?_⟩
  · intro hgr
    simp [buildPatternMetadata, hgr]
  · intro hgr
    simp [buildPatternMetadata, hgr]
  · intro kv hkv
    simp only [buildPatternMetadata] at hkv
    have h3 := objDelete_not_mem _ "markdown" kv hkv
    have hkv2 := objDelete_subset _ "markdown" kv hkv
    have h2 := objDelete_not_mem _ "state" kv hkv2
    have hkv1 := objDelete_subset _ "state" kv hkv2
    have h1 := objDelete_not_mem _ "title" kv hkv1
    exact ⟨h1, h2, h3⟩
  · intro hr
    by_cases hg : p.isPattern = false ∨ p.compileState = CompileState.CLEAN
    · rw [renderSinglePattern_skip env cfg pl p head hg] at hr
      simp at hr
    · simp only [renderSinglePattern, if_neg hg]
      exact ⟨_, rfl, rfl, rfl, rfl, rfl, rfl⟩

/-- Witness for C7 at a concrete pattern with matching group and subgroup,
front-matter title/state/markdown keys, and a successful render. -/
theorem patternMetadata_contract_witness :
    (buildPatternMetadata exPattern).patternBreadcrumb =
      Breadcrumb.typeOnly "atoms" ∧
    (∀ kv ∈ (buildPatternMetadata exPattern).extraOutput,
      kv.1 ≠ "title" ∧ kv.1 ≠ "state" ∧ kv.1 ≠ "markdown") ∧
    (buildPatternMetadata exPattern).patternExtension = "mustache" := by
  have h := patternMetadata_contract exEnv exCfg exState exPattern "h"
  exact ⟨h.2.2.2.1 rfl, h.2.2.2.2.2.2.1, h.2.2.2.2.2.1⟩

/-- C8: the written output variants are the rendered page (head fragment ++
pattern body ++ foot fragment), the rawTemplate (the original template
source), the markupOnly body, plus engine-contributed extra files; with
cleanOutputHtml enabled each content passes through the engine formatter for
that variant when supplied and the default pretty-printer otherwise, and with
it disabled content is verbatim; and in the render trace all the file writes
sit between the write-begin and write-end events. -/
theorem writePatternFiles_contract (env : Env) (cfg : Config)
    (pl2 : PatternLabState) (p q : Pattern) (headHTML footerHTML head2 : String) :
    (cfg.cleanOutputHtml = true →
      writePatternFiles env cfg headHTML p footerHTML =
        [ { path := pathJoin cfg.paths.publicPatterns
              (env.getPatternLink p.relPath "rendered"),
            content := (p.engine.renderedCodeFormatter.getD env.cleanHtml)
              (headHTML ++ p.patternPartialCode ++ footerHTML) },
          { path := pathJoin cfg.paths.publicPatterns
              (env.getPatternLink p.relPath "rawTemplate"),
            content := (p.engine.rawTemplateCodeFormatter.getD env.cleanHtml)
              p.template },
          { path := pathJoin cfg.paths.publicPatterns
              (env.getPatternLink p.relPath "markupOnly"),
            content := (p.engine.markupOnlyCodeFormatter.getD env.cleanHtml)
              p.patternPartialCode } ] ++ p.engine.addOutputFiles) ∧
    (cfg.cleanOutputHtml = false →
      writePatternFiles env cfg headHTML p footerHTML =
        [ { path := pathJoin cfg.paths.publicPatterns
              (env.getPatternLink p.relPath "rendered"),
            content := headHTML ++ p.patternPartialCode ++ footerHTML },
          { path := pathJoin cfg.paths.publicPatterns
              (env.getPatternLink p.relPath "rawTemplate"),
            content := p.template },
          { path := pathJoin cfg.paths.publicPatterns
              (env.getPatternLink p.relPath "markupOnly"),
            content := p.patternPartialCode } ] ++ p.engine.addOutputFiles) ∧
    (¬(q.isPattern = false ∨ q.compileState = CompileState.CLEAN) →
      ∃ pre hh p5 fh post,
        (renderSinglePattern env cfg pl2 q head2).2.2.2 =
          pre ++ (writePatternFiles env cfg hh p5 fh).map
              (fun f => Effect.writeFile f.path f.content) ++
            Effect.emit "patternlab-pattern-write-end" :: post ∧
        pre.getLast? = some (Effect.emit "patternlab-pattern-write-begin") ∧
        (∀ e ∈ pre, e.isWriteFile = false) ∧
        (∀ e ∈ post, e.isWriteFile = false)) := by
  refine ⟨?_, ?_, ?_⟩
  · intro hc
    simp [writePatternFiles, hc]
  · intro hc
    simp [writePatternFiles, hc]
  · intro hg
    have key : ∃ hh p5 fh,
        (renderSinglePattern env cfg pl2 q head2).2.2.2 =
          [Effect.setCompileState q.relPath CompileState.BUILDING,
           Effect.emit "patternlab-pattern-before-data-merge"] ++
          (if env.jsonCopyFails = true then
             [Effect.log ("There was an error parsing JSON for " ++ q.relPath)]
           else []) ++
          (if env.jsonCopyFails = true then
             [Effect.log ("There was an error parsing JSON for " ++ q.relPath)]
           else []) ++
          [Effect.emit "patternlab-pattern-write-begin"] ++
          (writePatternFiles env cfg hh p5 fh).map
            (fun f => Effect.writeFile f.path f.content) ++
          [Effect.emit "patternlab-pattern-write-end",
           Effect.setCompileState q.relPath CompileState.CLEAN,
           Effect.log ("Built pattern: " ++ q.patternPartialId)] := by
      simp only [renderSinglePattern, if_neg hg]
      exact ⟨_, _, _, rfl⟩
    obtain ⟨hh, p5, fh, hkey⟩ := key
    refine ⟨[Effect.setCompileState q.relPath CompileState.BUILDING,
        Effect.emit "patternlab-pattern-before-data-merge"] ++
        (if env.jsonCopyFails = true then
           [Effect.log ("There was an error parsing JSON for " ++ q.relPath)]
         else []) ++
        (if env.jsonCopyFails = true then
           [Effect.log ("There was an error parsing JSON for " ++ q.relPath)]
         else []) ++
        [Effect.emit "patternlab-pattern-write-begin"],
      hh, p5, fh,
      [Effect.setCompileState q.relPath CompileState.CLEAN,
       Effect.log ("Built pattern: " ++ q.patternPartialId)],
      ?_, ?_, ?_, ?_⟩
    · rw [hkey]
    · exact List.getLast?_concat _
    · refine allEffects_append (allEffects_append (allEffects_append
        (allEffects_cons rfl (allEffects_cons rfl allEffects_nil)) ?_) ?_)
        (allEffects_cons rfl allEffects_nil)
      · split
        · exact allEffects_cons rfl allEffects_nil
        · exact allEffects_nil
      · split
        · exact allEffects_cons rfl allEffects_nil
        · exact allEffects_nil
    · exact allEffects_cons rfl (allEffects_cons rfl allEffects_nil)

/-- Witness for C8: content equations at a concrete pattern with formatting
disabled, and the write-ordering decomposition at a renderable pattern. -/
theorem writePatternFiles_contract_witness :
    writePatternFiles exEnv { exCfg with cleanOutputHtml := false } "H"
        exPattern "F" =
      [ { path := "public/patterns//atoms/button.mustache.rendered",
          content := "H" ++ exPattern.patternPartialCode ++ "F" },
        { path := "public/patterns//atoms/button.mustache.rawTemplate",
          content := exPattern.template },
        { path := "public/patterns//atoms/button.mustache.markupOnly",
          content := exPattern.patternPartialCode } ] := by
  have h := (writePatternFiles_contract exEnv { exCfg with cleanOutputHtml := false }
    exState exPattern exPattern "H" "F" "h").2.1 rfl
  simpa using h

section TraversalLemmas

theorem loadPhase_eq (files : List Pattern) (pl : PatternLabState) :
    loadPhase files pl =
      ({ pl with patterns := pl.patterns ++ files },
       files.map (fun f => Effect.loadPattern f.relPath)) := by
  induction files generalizing pl with
  | nil => simp [loadPhase]
  | cons f fs ih =>
    simp [loadPhase, ih, List.append_assoc]

theorem processAllPatternsIterative_patterns (files : List Pattern)
    (pl : PatternLabState) :
    (processAllPatternsIterative files pl).1.patterns = pl.patterns ++ files := by
  simp [processAllPatternsIterative, loadPhase_eq, processPhase]

theorem processAllPatternsIterative_state (files : List Pattern)
    (pl : PatternLabState) :
    (processAllPatternsIterative files pl).1 =
      { pl with patterns := pl.patterns ++ files } := by
  simp [processAllPatternsIterative, loadPhase_eq, processPhase]

theorem processAllPatternsIterative_trace (files : List Pattern)
    (pl : PatternLabState) :
    (processAllPatternsIterative files pl).2 =
      files.map (fun f => Effect.loadPattern f.relPath) ++
      (pl.patterns ++ files).map (fun p =>
        Effect.processPattern p.relPath
          ((pl.patterns ++ files).map (fun q => q.relPath))) := by
  simp [processAllPatternsIterative, loadPhase_eq, processPhase]

end TraversalLemmas

/-- C6: in Phase 1, every load effect for every discovered file precedes every
process effect, each process step is invoked for a pattern only once the
pattern collection holds the complete discovered set (each process effect
records the full collection it ran against), and the resolved Phase 1 value
already contains every processed pattern. -/
theorem phase1_loads_all_before_processing (files : List Pattern)
    (pl : PatternLabState) :
    (processAllPatternsIterative files pl).1.patterns = pl.patterns ++ files ∧
    (processAllPatternsIterative files pl).2 =
      files.map (fun f => Effect.loadPattern f.relPath) ++
      (pl.patterns ++ files).map (fun p =>
        Effect.processPattern p.relPath
          ((pl.patterns ++ files).map (fun q => q.relPath))) ∧
    ∀ e ∈ (processAllPatternsIterative files pl).2,
      ∀ r known, e = Effect.processPattern r known →
        known = (pl.patterns ++ files).map (fun q => q.relPath) := by
  refine ⟨processAllPatternsIterative_patterns files pl,
    processAllPatternsIterative_trace files pl, ?_⟩
  intro e he r known heq
  rw [processAllPatternsIterative_trace files pl] at he
  rcases List.mem_append.mp he with h1 | h1
  · rcases List.mem_map.mp h1 with ⟨x, _, rfl⟩
    cases heq
  · rcases List.mem_map.mp h1 with ⟨x, _, rfl⟩
    cases heq
    rfl

/-- Witness for C6 at a concrete discovered file set: one load effect, then
one process effect carrying the complete pattern collection. -/
theorem phase1_loads_all_before_processing_witness :
    (processAllPatternsIterative [exPattern] exState).1.patterns = [exPattern] ∧
    (processAllPatternsIterative [exPattern] exState).2 =
      [Effect.loadPattern "atoms/button.mustache",
       Effect.processPattern "atoms/button.mustache"
         ["atoms/button.mustache"]] := by
  have h := phase1_loads_all_before_processing [exPattern] exState
  refine ⟨by simpa [exState] using h.1, ?_⟩
  rw [h.2.1]
  rfl

section RenderAllLemmas

theorem renderAll_nil (env : Env) (cfg : Config) (head : String)
    (pl : PatternLabState) :
    renderAll env cfg head pl [] = (pl, [], [], none) := rfl

theorem renderSinglePatternThrow_none (env : Env) (p : Pattern)
    (hrt : ∀ r, env.renderThrows r = none) :
    renderSinglePatternThrow env p = none := by
  unfold renderSinglePatternThrow
  split
  · rfl
  · exact hrt _

theorem renderAll_listeners (env : Env) (cfg : Config) (head : String)
    (ps : List Pattern) :
    ∀ pl, (renderAll env cfg head pl ps).1.listeners = pl.listeners := by
  induction ps with
  | nil => intro pl; rfl
  | cons p ps ih =>
    intro pl
    rcases hth : renderSinglePatternThrow env p with _ | msg
    · simp only [renderAll, hth]
      rw [ih, renderSinglePattern_listeners]
    · simp only [renderAll, hth]
      rfl

theorem renderAll_not_building (env : Env) (cfg : Config) (head : String)
    (ps : List Pattern) :
    ∀ pl, (∀ p ∈ ps, renderSinglePatternThrow env p = none) →
      (∀ p ∈ ps, p.compileState ≠ CompileState.BUILDING) →
      ∀ q ∈ (renderAll env cfg head pl ps).2.1,
        q.compileState ≠ CompileState.BUILDING := by
  induction ps with
  | nil =>
    intro pl _ _ q hq
    simp [renderAll] at hq
  | cons p ps ih =>
    intro pl hrt h q hq
    have hth : renderSinglePatternThrow env p = none :=
      hrt p (List.mem_cons_self p ps)
    simp only [renderAll, hth] at hq
    rcases List.mem_cons.mp hq with hq1 | hq2
    · subst hq1
      rcases renderSinglePattern_state_cases env cfg pl p head with hc | hc
      · rw [hc]
        exact h p (List.mem_cons_self p ps)
      · rw [hc]
        simp
    · exact ih _ (fun r hr => hrt r (List.mem_cons_of_mem p hr))
        (fun r hr => h r (List.mem_cons_of_mem p hr)) q hq2

theorem renderAll_noEmptyDir (env : Env) (cfg : Config) (head : String)
    (ps : List Pattern) :
    ∀ pl, allEffects (fun e => e.isEmptyDir = false)
      (renderAll env cfg head pl ps).2.2.1 := by
  induction ps with
  | nil => intro pl; exact allEffects_nil
  | cons p ps ih =>
    intro pl
    rcases hth : renderSinglePatternThrow env p with _ | msg
    · simp only [renderAll, hth]
      exact allEffects_append
        (renderSinglePattern_trace_noEmptyDir env cfg pl p head) (ih _)
    · simp only [renderAll, hth, renderSinglePatternAborted]
      refine allEffects_append
        (allEffects_cons rfl (allEffects_cons rfl allEffects_nil)) ?_
      split
      · exact allEffects_cons rfl allEffects_nil
      · exact allEffects_nil

theorem renderAll_abort_head (env : Env) (cfg : Config) (head : String)
    (pl : PatternLabState) (p : Pattern) (ps : List Pattern) (msg : String)
    (hth : renderSinglePatternThrow env p = some msg) :
    (renderAll env cfg head pl (p :: ps)).2.2.2 = some msg ∧
    ((renderAll env cfg head pl (p :: ps)).2.1.head?.map
      Pattern.compileState) = some CompileState.BUILDING ∧
    (renderAll env cfg head pl (p :: ps)).1.graph.nodeState p.relPath =
      some CompileState.BUILDING := by
  refine ⟨?_, ?_, ?_⟩
  · simp [renderAll, hth]
  · simp [renderAll, hth, renderSinglePatternAborted]
  · simp only [renderAll, hth, renderSinglePatternAborted]
    exact Graph.nodeState_set _ _ _

theorem renderSetForBuild_not_building (env : Env) (incr : Bool)
    (ps : List Pattern)
    (h : ∀ p ∈ ps, p.compileState ≠ CompileState.BUILDING) :
    ∀ q ∈ renderSetForBuild env incr ps,
      q.compileState ≠ CompileState.BUILDING := by
  intro q hq
  unfold renderSetForBuild compileOrder mark_modified_patterns markAllForRebuild at hq
  split at hq
  · rcases List.mem_map.mp hq with ⟨p, hp, rfl⟩
    by_cases hm : env.modifiedSince p.relPath = true
    · simp [hm]
    · simp only [hm, if_false]
      exact h p hp
  · rcases List.mem_map.mp hq with ⟨p, hp, rfl⟩
    simp

theorem renderSetForBuild_all_marked (env : Env) (ps : List Pattern) :
    ∀ q ∈ renderSetForBuild env false ps,
      q.compileState = CompileState.NEEDS_REBUILD := by
  intro q hq
  unfold renderSetForBuild markAllForRebuild at hq
  simp only [if_neg (by simp : ¬(false = true))] at hq
  rcases List.mem_map.mp hq with ⟨p, _, rfl⟩
  rfl

end RenderAllLemmas

section BuildLemmas

theorem buildPatterns_fst (env : Env) (cfg : Config) (del : Bool)
    (pl : PatternLabState) :
    (buildPatterns env cfg del pl).1 = (buildAfterPre env cfg del pl).1 := rfl

theorem buildPatterns_state (env : Env) (cfg : Config) (del : Bool)
    (pl : PatternLabState) :
    (buildPatterns env cfg del pl).2.1 = (buildAfterPre env cfg del pl).2.1 := rfl

theorem buildPatterns_trace (env : Env) (cfg : Config) (del : Bool)
    (pl : PatternLabState) :
    (buildPatterns env cfg del pl).2.2 =
      buildPreEffects env cfg del ++ (buildAfterPre env cfg del pl).2.2 := rfl

theorem buildAfterPre_resolved (env : Env) (cfg : Config) (del : Bool)
    (pl : PatternLabState) (hs : env.structuralOk = true)
    (hh : env.headOk = true) (hf : env.footOk = true)
    (hpe : env.pipelineError = none) :
    (buildAfterPre env cfg del pl).1 = BuildOutcome.resolved := by
  simp only [buildAfterPre]
  simp [hs, hh, hf, hpe]

theorem buildAfterPre_listeners (env : Env) (cfg : Config) (del : Bool)
    (pl : PatternLabState) :
    (buildAfterPre env cfg del pl).2.1.listeners = pl.listeners := by
  simp only [buildAfterPre]
  by_cases hs : env.structuralOk = false
  · simp [hs]
  · rcases hpe : env.pipelineError with _ | msg
    · by_cases hhd : env.headOk = false
      · simp [hs, hpe, hhd, processAllPatternsIterative_state]
      · by_cases hft : env.footOk = false
        · simp [hs, hpe, hhd, hft, processAllPatternsIterative_state]
        · simp [hs, hpe, hhd, hft, processAllPatternsIterative_state,
            renderAll_listeners]
    · simp [hs, hpe, processAllPatternsIterative_state]

theorem buildAfterPre_structuralFail (env : Env) (cfg : Config) (del : Bool)
    (pl : PatternLabState) (hs : env.structuralOk = false) :
    (buildAfterPre env cfg del pl).1 = BuildOutcome.exited 1 ∧
    (buildAfterPre env cfg del pl).2.2 =
      [Effect.log essentialFileMsg, Effect.exitProcess 1] := by
  simp only [buildAfterPre]
  simp [hs]

theorem buildAfterPre_caught (env : Env) (cfg : Config) (del : Bool)
    (pl : PatternLabState) (msg : String) (hs : env.structuralOk = true)
    (hpe : env.pipelineError = some msg) :
    (buildAfterPre env cfg del pl).1 = BuildOutcome.resolved ∧
    (buildAfterPre env cfg del pl).2.1.patterns = env.patternFiles ∧
    (buildAfterPre env cfg del pl).2.2 =
      [Effect.delegate "combine_listItems",
       Effect.emit "patternlab-build-global-data-end"] ++
      (env.patternFiles.map (fun f => Effect.loadPattern f.relPath) ++
       env.patternFiles.map (fun p =>
         Effect.processPattern p.relPath
           (env.patternFiles.map (fun q => q.relPath)))) ++
      [Effect.log (catchPrefixMsg ++ msg)] := by
  simp only [buildAfterPre]
  simp [hs, hpe, processAllPatternsIterative_state,
    processAllPatternsIterative_trace]

theorem buildAfterPre_headFail (env : Env) (cfg : Config) (del : Bool)
    (pl : PatternLabState) (hs : env.structuralOk = true)
    (hpe : env.pipelineError = none) (hhd : env.headOk = false) :
    (buildAfterPre env cfg del pl).1 = BuildOutcome.exited 1 ∧
    (buildAfterPre env cfg del pl).2.2 =
      [Effect.delegate "combine_listItems",
       Effect.emit "patternlab-build-global-data-end"] ++
      (env.patternFiles.map (fun f => Effect.loadPattern f.relPath) ++
       env.patternFiles.map (fun p =>
         Effect.processPattern p.relPath
           (env.patternFiles.map (fun q => q.relPath)))) ++
      ([Effect.emit "patternlab-pattern-iteration-end",
        Effect.delegate "parse_data_links"] ++
       env.patternFiles.map (fun p =>
         Effect.delegate ("process_pattern_recursive " ++ p.relPath))) ++
      [Effect.log headMissingMsg, Effect.exitProcess 1] := by
  simp only [buildAfterPre]
  simp [hs, hpe, hhd, processAllPatternsIterative_state,
    processAllPatternsIterative_trace]

theorem buildAfterPre_footFail (env : Env) (cfg : Config) (del : Bool)
    (pl : PatternLabState) (hs : env.structuralOk = true)
    (hpe : env.pipelineError = none) (hhd : env.headOk = true)
    (hft : env.footOk = false) :
    (buildAfterPre env cfg del pl).1 = BuildOutcome.exited 1 ∧
    (buildAfterPre env cfg del pl).2.2 =
      [Effect.delegate "combine_listItems",
       Effect.emit "patternlab-build-global-data-end"] ++
      (env.patternFiles.map (fun f => Effect.loadPattern f.relPath) ++
       env.patternFiles.map (fun p =>
         Effect.processPattern p.relPath
           (env.patternFiles.map (fun q => q.relPath)))) ++
      ([Effect.emit "patternlab-pattern-iteration-end",
        Effect.delegate "parse_data_links"] ++
       env.patternFiles.map (fun p =>
         Effect.delegate ("process_pattern_recursive " ++ p.relPath))) ++
      [Effect.log footMissingMsg, Effect.exitProcess 1] := by
  simp only [buildAfterPre]
  simp [hs, hpe, hhd, hft, processAllPatternsIterative_state,
    processAllPatternsIterative_trace]

theorem buildAfterPre_full_shape (env : Env) (cfg : Config) (del : Bool)
    (pl : PatternLabState) (hs : env.structuralOk = true)
    (hpe : env.pipelineError = none) (hhd : env.headOk = true)
    (hft : env.footOk = true) :
    ∃ (pl6 : PatternLabState) (head : String) (syncLogs tail : List Effect),
      (buildAfterPre env cfg del pl).1 = BuildOutcome.resolved ∧
      (buildAfterPre env cfg del pl).2.1.patterns =
        (renderAll env cfg head pl6
          (renderSetForBuild env (incrementalBuildsEnabled env del)
            env.patternFiles)).2.1 ∧
      allEffects (fun e => ∃ m, e = Effect.log m) syncLogs ∧
      allEffects (fun e => e.isEmptyDir = false) tail ∧
      (buildAfterPre env cfg del pl).2.2 =
        [Effect.delegate "combine_listItems",
         Effect.emit "patternlab-build-global-data-end"] ++
        (env.patternFiles.map (fun f => Effect.loadPattern f.relPath) ++
         env.patternFiles.map (fun p =>
           Effect.processPattern p.relPath
             (env.patternFiles.map (fun q => q.relPath)))) ++
        ([Effect.emit "patternlab-pattern-iteration-end",
          Effect.delegate "parse_data_links"] ++
         env.patternFiles.map (fun p =>
           Effect.delegate ("process_pattern_recursive " ++ p.relPath)) ++
         [Effect.delegate "cascade_pattern_states"]) ++
        syncLogs ++
        (renderAll env cfg head pl6
          (renderSetForBuild env (incrementalBuildsEnabled env del)
            env.patternFiles)).2.2.1 ++
        tail ∧
      (∀ msg,
        (renderAll env cfg head pl6
          (renderSetForBuild env (incrementalBuildsEnabled env del)
            env.patternFiles)).2.2.2 = some msg →
        tail = [Effect.log (catchPrefixMsg ++ msg)]) := by
  simp only [buildAfterPre]
  simp [hs, hpe, hhd, hft, processAllPatternsIterative_state,
    processAllPatternsIterative_trace]
  refine ⟨_, _, rfl, _, ?_, _, ?_, rfl, ?_⟩
  · split
    · refine allEffects_map _ (fun n => ?_) _
      exact ⟨_, rfl⟩
    · exact allEffects_nil
  · split
    · exact allEffects_cons rfl allEffects_nil
    · refine allEffects_cons rfl (allEffects_append ?_ ?_)
      · split
        · exact allEffects_cons rfl (allEffects_cons rfl allEffects_nil)
        · exact allEffects_nil
      · exact allEffects_cons rfl allEffects_nil
  · intro msg hm
    split
    · simp_all
    · simp_all


/-- An effect that is a log, an event emission, an exit or a delegate call:
neither a file write, nor a directory clear, nor a compile-state transition. -/
theorem isPassive_weaken_emptyDir {l : List Effect}
    (h : allEffects (fun e => e.isWriteFile = false ∧ e.isEmptyDir = false ∧
      e.isSetCompileState = false) l) :
    allEffects (fun e => e.isEmptyDir = false) l :=
  fun e he => (h e he).2.1

theorem isPassive_weaken_noRender {l : List Effect}
    (h : allEffects (fun e => e.isWriteFile = false ∧ e.isEmptyDir = false ∧
      e.isSetCompileState = false) l) :
    allEffects isNotRender l :=
  fun e he => ⟨(h e he).1, (h e he).2.2⟩

theorem buildAfterPre_structuralFail_passive (env : Env) (cfg : Config)
    (del : Bool) (pl : PatternLabState) (hs : env.structuralOk = false) :
    allEffects (fun e => e.isWriteFile = false ∧ e.isEmptyDir = false ∧
      e.isSetCompileState = false) (buildAfterPre env cfg del pl).2.2 := by
  rw [(buildAfterPre_structuralFail env cfg del pl hs).2]
  exact allEffects_cons ⟨rfl, rfl, rfl⟩
    (allEffects_cons ⟨rfl, rfl, rfl⟩ allEffects_nil)

theorem buildAfterPre_caught_passive (env : Env) (cfg : Config) (del : Bool)
    (pl : PatternLabState) (msg : String) (hs : env.structuralOk = true)
    (hpe : env.pipelineError = some msg) :
    allEffects (fun e => e.isWriteFile = false ∧ e.isEmptyDir = false ∧
      e.isSetCompileState = false) (buildAfterPre env cfg del pl).2.2 := by
  rw [(buildAfterPre_caught env cfg del pl msg hs hpe).2.2]
  refine allEffects_append (allEffects_append ?_ ?_) ?_
  · exact allEffects_cons ⟨rfl, rfl, rfl⟩
      (allEffects_cons ⟨rfl, rfl, rfl⟩ allEffects_nil)
  · refine allEffects_append ?_ ?_
    · refine allEffects_map _ (fun f => ?_) _
      exact ⟨rfl, rfl, rfl⟩
    · refine allEffects_map _ (fun f => ?_) _
      exact ⟨rfl, rfl, rfl⟩
  · exact allEffects_cons ⟨rfl, rfl, rfl⟩ allEffects_nil

theorem buildAfterPre_headFail_passive (env : Env) (cfg : Config) (del : Bool)
    (pl : PatternLabState) (hs : env.structuralOk = true)
    (hpe : env.pipelineError = none) (hhd : env.headOk = false) :
    allEffects (fun e => e.isWriteFile = false ∧ e.isEmptyDir = false ∧
      e.isSetCompileState = false) (buildAfterPre env cfg del pl).2.2 := by
  rw [(buildAfterPre_headFail env cfg del pl hs hpe hhd).2]
  refine allEffects_append (allEffects_append (allEffects_append ?_ ?_) ?_) ?_
  · exact allEffects_cons ⟨rfl, rfl, rfl⟩
      (allEffects_cons ⟨rfl, rfl, rfl⟩ allEffects_nil)
  · refine allEffects_append ?_ ?_
    · refine allEffects_map _ (fun f => ?_) _
      exact ⟨rfl, rfl, rfl⟩
    · refine allEffects_map _ (fun f => ?_) _
      exact ⟨rfl, rfl, rfl⟩
  · refine allEffects_append ?_ ?_
    · exact allEffects_cons ⟨rfl, rfl, rfl⟩
        (allEffects_cons ⟨rfl, rfl, rfl⟩ allEffects_nil)
    · refine allEffects_map _ (fun f => ?_) _
      exact ⟨rfl, rfl, rfl⟩
  · exact allEffects_cons ⟨rfl, rfl, rfl⟩
      (allEffects_cons ⟨rfl, rfl, rfl⟩ allEffects_nil)

theorem buildAfterPre_footFail_passive (env : Env) (cfg : Config) (del : Bool)
    (pl : PatternLabState) (hs : env.structuralOk = true)
    (hpe : env.pipelineError = none) (hhd : env.headOk = true)
    (hft : env.footOk = false) :
    allEffects (fun e => e.isWriteFile = false ∧ e.isEmptyDir = false ∧
      e.isSetCompileState = false) (buildAfterPre env cfg del pl).2.2 := by
  rw [(buildAfterPre_footFail env cfg del pl hs hpe hhd hft).2]
  refine allEffects_append (allEffects_append (allEffects_append ?_ ?_) ?_) ?_
  · exact allEffects_cons ⟨rfl, rfl, rfl⟩
      (allEffects_cons ⟨rfl, rfl, rfl⟩ allEffects_nil)
  · refine allEffects_append ?_ ?_
    · refine allEffects_map _ (fun f => ?_) _
      exact ⟨rfl, rfl, rfl⟩
    · refine allEffects_map _ (fun f => ?_) _
      exact ⟨rfl, rfl, rfl⟩
  · refine allEffects_append ?_ ?_
    · exact allEffects_cons ⟨rfl, rfl, rfl⟩
        (allEffects_cons ⟨rfl, rfl, rfl⟩ allEffects_nil)
    · refine allEffects_map _ (fun f => ?_) _
      exact ⟨rfl, rfl, rfl⟩
  · exact allEffects_cons ⟨rfl, rfl, rfl⟩
      (allEffects_cons ⟨rfl, rfl, rfl⟩ allEffects_nil)

theorem buildAfterPre_noEmptyDir (env : Env) (cfg : Config) (del : Bool)
    (pl : PatternLabState) :
    allEffects (fun e => e.isEmptyDir = false)
      (buildAfterPre env cfg del pl).2.2 := by
  cases hs : env.structuralOk with
  | false =>
    exact isPassive_weaken_emptyDir
      (buildAfterPre_structuralFail_passive env cfg del pl hs)
  | true =>
    rcases hpe : env.pipelineError with _ | msg
    · cases hhd : env.headOk with
      | false =>
        exact isPassive_weaken_emptyDir
          (buildAfterPre_headFail_passive env cfg del pl hs hpe hhd)
      | true =>
        cases hft : env.footOk with
        | false =>
          exact isPassive_weaken_emptyDir
            (buildAfterPre_footFail_passive env cfg del pl hs hpe hhd hft)
        | true =>
          obtain ⟨pl6, head, syncLogs, tail, _, _, hsl, htail, htr, _⟩ :=
            buildAfterPre_full_shape env cfg del pl hs hpe hhd hft
          rw [htr]
          refine allEffects_append (allEffects_append (allEffects_append
            (allEffects_append (allEffects_append ?_ ?_) ?_) ?_) ?_) ?_
          · exact allEffects_cons rfl (allEffects_cons rfl allEffects_nil)
          · refine allEffects_append ?_ ?_
            · refine allEffects_map _ (fun f => ?_) _
              rfl
            · refine allEffects_map _ (fun f => ?_) _
              rfl
          · refine allEffects_append (allEffects_append ?_ ?_) ?_
            · exact allEffects_cons rfl (allEffects_cons rfl allEffects_nil)
            · refine allEffects_map _ (fun f => ?_) _
              rfl
            · exact allEffects_cons rfl allEffects_nil
          · intro e he
            obtain ⟨m, rfl⟩ := hsl e he
            rfl
          · exact renderAll_noEmptyDir env cfg head _ pl6
          · exact htail
    · exact isPassive_weaken_emptyDir
        (buildAfterPre_caught_passive env cfg del pl msg hs hpe)

theorem buildAfterPre_no_building (env : Env) (cfg : Config) (del : Bool)
    (pl : PatternLabState)
    (hrt : ∀ r, env.renderThrows r = none)
    (hnp : ∀ q ∈ env.patternFiles, q.compileState ≠ CompileState.BUILDING)
    (hres : (buildAfterPre env cfg del pl).1 = BuildOutcome.resolved) :
    ∀ q ∈ (buildAfterPre env cfg del pl).2.1.patterns,
      q.compileState ≠ CompileState.BUILDING := by
  cases hs : env.structuralOk with
  | false =>
    rw [(buildAfterPre_structuralFail env cfg del pl hs).1] at hres
    simp at hres
  | true =>
    rcases hpe : env.pipelineError with _ | msg
    · cases hhd : env.headOk with
      | false =>
        rw [(buildAfterPre_headFail env cfg del pl hs hpe hhd).1] at hres
        simp at hres
      | true =>
        cases hft : env.footOk with
        | false =>
          rw [(buildAfterPre_footFail env cfg del pl hs hpe hhd hft).1] at hres
          simp at hres
        | true =>
          obtain ⟨pl6, head, syncLogs, tail, _, hpat, _, _, _, _⟩ :=
            buildAfterPre_full_shape env cfg del pl hs hpe hhd hft
          rw [hpat]
          exact renderAll_not_building env cfg head _ pl6
            (fun r _ => renderSinglePatternThrow_none env r hrt)
            (renderSetForBuild_not_building env _ _ hnp)
    · rw [(buildAfterPre_caught env cfg del pl msg hs hpe).2.1]
      exact hnp

theorem buildPreEffects_noRender (env : Env) (cfg : Config) (del : Bool) :
    allEffects isNotRender (buildPreEffects env cfg del) := by
  refine allEffects_cons ⟨rfl, rfl⟩ ?_
  refine allEffects_append (allEffects_append (allEffects_append ?_ ?_) ?_) ?_
  · unfold upgradeEffects
    split
    · exact allEffects_cons ⟨rfl, rfl⟩ allEffects_nil
    · exact allEffects_nil
  · unfold incrEffects
    split
    · exact allEffects_cons ⟨rfl, rfl⟩ allEffects_nil
    · exact allEffects_cons ⟨rfl, rfl⟩ allEffects_nil
  · unfold dataEffects
    split
    · exact allEffects_nil
    · exact allEffects_cons ⟨rfl, rfl⟩ allEffects_nil
  · unfold listitemsEffects
    split
    · exact allEffects_nil
    · exact allEffects_cons ⟨rfl, rfl⟩ allEffects_nil

theorem buildPreEffects_noEmptyDir (env : Env) (cfg : Config) (del : Bool)
    (hincr : incrementalBuildsEnabled env del = true) :
    allEffects (fun e => e.isEmptyDir = false) (buildPreEffects env cfg del) := by
  refine allEffects_cons rfl ?_
  refine allEffects_append (allEffects_append (allEffects_append ?_ ?_) ?_) ?_
  · unfold upgradeEffects
    split
    · exact allEffects_cons rfl allEffects_nil
    · exact allEffects_nil
  · unfold incrEffects
    rw [if_pos hincr]
    exact allEffects_cons rfl allEffects_nil
  · unfold dataEffects
    split
    · exact allEffects_nil
    · exact allEffects_cons rfl allEffects_nil
  · unfold listitemsEffects
    split
    · exact allEffects_nil
    · exact allEffects_cons rfl allEffects_nil

end BuildLemmas

/-- C1 (amended): any exception thrown by the pipeline after pattern
discovery is caught and logged with the buildPatterns error prefix, and the
promise returned by buildPatterns RESOLVES successfully: the .catch handler
swallows the failure instead of surfacing it as a rejection. -/
theorem buildPatterns_error_caught_and_resolves (env : Env) (cfg : Config)
    (del : Bool) (pl : PatternLabState) (msg : String)
    (hs : env.structuralOk = true) (hpe : env.pipelineError = some msg) :
    (buildPatterns env cfg del pl).1 = BuildOutcome.resolved ∧
    Effect.log (catchPrefixMsg ++ msg) ∈ (buildPatterns env cfg del pl).2.2 := by
  obtain ⟨h1, _, h3⟩ := buildAfterPre_caught env cfg del pl msg hs hpe
  constructor
  · rw [buildPatterns_fst]
    exact h1
  · rw [buildPatterns_trace, h3]
    simp

/-- Witness for the amended C1 at a concrete pipeline failure. -/
theorem buildPatterns_error_caught_and_resolves_witness :
    (buildPatterns exEnvBoom exCfg false exState).1 = BuildOutcome.resolved ∧
    Effect.log (catchPrefixMsg ++ "boom") ∈
      (buildPatterns exEnvBoom exCfg false exState).2.2 :=
  buildPatterns_error_caught_and_resolves exEnvBoom exCfg false exState "boom"
    rfl rfl

/-- C1 counterexample: at a concrete build whose post-discovery pipeline
throws, the promise returned by buildPatterns resolves successfully; the
claim that the build does not resolve successfully is false on this input. -/
theorem buildPatterns_error_rejects_counterexample :
    exEnvBoom.pipelineError = some "boom" ∧
    (buildPatterns exEnvBoom exCfg false exState).1 = BuildOutcome.resolved :=
  ⟨rfl, rfl⟩

/-- C2: invoking build or patternsonly while isBusy is true logs the busy
message, performs no file-system effect and no state mutation (the context is
returned unchanged and the trace is exactly the busy log), and returns an
immediately resolved promise. -/
theorem build_busy_guard (env : Env) (cfg : Config) (pl : PatternLabState)
    (cleanPublic : Bool) (h : pl.isBusy = true) :
    build env cfg pl cleanPublic =
      (BuildOutcome.resolved, pl, [Effect.log busyMsg]) ∧
    patternsonly env cfg pl cleanPublic =
      (BuildOutcome.resolved, pl, [Effect.log busyMsg]) := by
  constructor
  · simp [build, h]
  · simp [patternsonly, h]

/-- Witness for C2 at a concrete busy context. -/
theorem build_busy_guard_witness :
    build exEnv exCfg exBusyState false =
      (BuildOutcome.resolved, exBusyState, [Effect.log busyMsg]) ∧
    patternsonly exEnv exCfg exBusyState false =
      (BuildOutcome.resolved, exBusyState, [Effect.log busyMsg]) :=
  build_busy_guard exEnv exCfg exBusyState false rfl

/-- C3: incrementalBuildsEnabled equals not(deletePatternDirectory or
graphNeedsUpgrade); a version-stamp mismatch of the loaded graph (without
directory deletion) forces it false; when it is false the public patterns
directory is cleared before any file write appears in the build trace and the
render set marks every discovered pattern NEEDS_REBUILD regardless of
modification times; when it is true the trace contains no directory clearing. -/
theorem incremental_flag_contract (env : Env) (cfg : Config) (del : Bool)
    (pl : PatternLabState) :
    incrementalBuildsEnabled env del = !(del || graphNeedsUpgrade env del) ∧
    (del = false → env.storedGraph.version ≠ CURRENT_GRAPH_VERSION →
      incrementalBuildsEnabled env del = false) ∧
    (incrementalBuildsEnabled env del = false →
      clearedBeforeWrites (buildPatterns env cfg del pl).2.2
        cfg.paths.publicPatterns ∧
      ∀ ps, ∀ q ∈ renderSetForBuild env (incrementalBuildsEnabled env del) ps,
        q.compileState = CompileState.NEEDS_REBUILD) ∧
    (incrementalBuildsEnabled env del = true →
      allEffects (fun e => e.isEmptyDir = false)
        (buildPatterns env cfg del pl).2.2) := by
  refine ⟨rfl, ?_, ?_, ?_⟩
  · intro hdel hver
    simp [incrementalBuildsEnabled, graphNeedsUpgrade, loadPatternGraph,
      Graph.checkVersion, hdel, hver]
  · intro hincr
    constructor
    · refine ⟨Effect.emit "patternlab-build-pattern-start" ::
          upgradeEffects env del,
        dataEffects env ++ listitemsEffects env ++
          (buildAfterPre env cfg del pl).2.2, ?_, ?_⟩
      · rw [buildPatterns_trace]
        simp [buildPreEffects, incrEffects, hincr, List.append_assoc]
      · intro e he
        rcases List.mem_cons.mp he with he1 | he2
        · subst he1
          rfl
        · unfold upgradeEffects at he2
          split at he2
          · rcases List.mem_singleton.mp he2 with rfl
            rfl
          · simp at he2
    · intro ps q hq
      rw [hincr] at hq
      exact renderSetForBuild_all_marked env ps q hq
  · intro hincr
    rw [buildPatterns_trace]
    exact allEffects_append (buildPreEffects_noEmptyDir env cfg del hincr)
      (buildAfterPre_noEmptyDir env cfg del pl)

/-- Witness for C3: a stored graph with an old version stamp disables
incremental builds and the directory clearing precedes all writes; with the
current version stamp no clearing effect is present. -/
theorem incremental_flag_contract_witness :
    incrementalBuildsEnabled exEnvOldGraph false = false ∧
    clearedBeforeWrites (buildPatterns exEnvOldGraph exCfg false exState).2.2
      exCfg.paths.publicPatterns ∧
    allEffects (fun e => e.isEmptyDir = false)
      (buildPatterns exEnv exCfg false exState).2.2 := by
  have h1 := incremental_flag_contract exEnvOldGraph exCfg false exState
  have h2 := incremental_flag_contract exEnv exCfg false exState
  have hfalse : incrementalBuildsEnabled exEnvOldGraph false = false :=
    h1.2.1 rfl (by decide)
  exact ⟨hfalse, (h1.2.2.1 hfalse).1, h2.2.2.2 (by decide)⟩

/-- C5 counterexample: a concrete build whose only pattern's external render
throws mid-render, between the BUILDING assignment at line 399 and the CLEAN
assignment at line 489. The exception reaches the catch at line 653, the
build promise settles (resolves) and is logged, yet the pattern is left in
state BUILDING on the Pattern object and on the graph node: BUILDING is
observable across the public API boundary, refuting the claim as stated. -/
theorem building_leak_counterexample :
    exEnvRenderThrow.renderThrows "atoms/button.mustache" =
      some "render failed" ∧
    (buildPatterns exEnvRenderThrow exCfg true exState).1 =
      BuildOutcome.resolved ∧
    ((buildPatterns exEnvRenderThrow exCfg true exState).2.1.patterns.map
      Pattern.compileState) = [CompileState.BUILDING] ∧
    (buildPatterns exEnvRenderThrow exCfg true exState).2.1.graph.nodeState
      "atoms/button.mustache" = some CompileState.BUILDING ∧
    Effect.log (catchPrefixMsg ++ "render failed") ∈
      (buildPatterns exEnvRenderThrow exCfg true exState).2.2 := by
  refine ⟨rfl, rfl, rfl, rfl, ?_⟩
  decide

/-- C5 (amended): a pattern entering with NEEDS_REBUILD whose render
completes normally is rendered with the joint graph-node/Pattern transition
to BUILDING first, and pattern and graph node both end CLEAN when
renderSinglePattern returns; but BUILDING IS observable across the public
API boundary: an uncaught exception escaping the render of a pattern aborts
the loop with that pattern BUILDING on the Pattern and on the graph node,
the exception is caught and logged by the buildPatterns catch handler and
the build promise resolves with the pattern still BUILDING; only when no
render throws does a settled build leave no pattern BUILDING. -/
theorem compileState_building_contract (env : Env) (cfg : Config)
    (pl : PatternLabState) (p : Pattern) (head : String)
    (h1 : p.isPattern = true) (h2 : p.compileState = CompileState.NEEDS_REBUILD) :
    (renderSinglePattern env cfg pl p head).1 = true ∧
    (renderSinglePattern env cfg pl p head).2.2.2.head? =
      some (Effect.setCompileState p.relPath CompileState.BUILDING) ∧
    (renderSinglePattern env cfg pl p head).2.2.1.compileState =
      CompileState.CLEAN ∧
    (renderSinglePattern env cfg pl p head).2.1.graph.nodeState p.relPath =
      some CompileState.CLEAN ∧
    Effect.setCompileState p.relPath CompileState.CLEAN ∈
      (renderSinglePattern env cfg pl p head).2.2.2 ∧
    (∀ pl2 p2 ps2 msg head2, renderSinglePatternThrow env p2 = some msg →
      (renderAll env cfg head2 pl2 (p2 :: ps2)).2.2.2 = some msg ∧
      ((renderAll env cfg head2 pl2 (p2 :: ps2)).2.1.head?.map
        Pattern.compileState) = some CompileState.BUILDING ∧
      (renderAll env cfg head2 pl2 (p2 :: ps2)).1.graph.nodeState p2.relPath =
        some CompileState.BUILDING) ∧
    (∀ env2 cfg2 pl0 p2 rest msg,
      env2.structuralOk = true → env2.headOk = true → env2.footOk = true →
      env2.pipelineError = none → env2.patternFiles = p2 :: rest →
      p2.isPattern = true → env2.renderThrows p2.relPath = some msg →
      (buildPatterns env2 cfg2 true pl0).1 = BuildOutcome.resolved ∧
      ((buildPatterns env2 cfg2 true pl0).2.1.patterns.head?.map
        Pattern.compileState) = some CompileState.BUILDING ∧
      Effect.log (catchPrefixMsg ++ msg) ∈
        (buildPatterns env2 cfg2 true pl0).2.2) ∧
    (∀ env2 cfg2 del pl0,
      (∀ r, env2.renderThrows r = none) →
      (∀ q ∈ env2.patternFiles, q.compileState ≠ CompileState.BUILDING) →
      (buildPatterns env2 cfg2 del pl0).1 = BuildOutcome.resolved →
      ∀ q ∈ (buildPatterns env2 cfg2 del pl0).2.1.patterns,
        q.compileState ≠ CompileState.BUILDING) := by
  have hg : ¬(p.isPattern = false ∨ p.compileState = CompileState.CLEAN) := by
    rw [h1, h2]
    simp
  refine ⟨renderSinglePattern_fst env cfg pl p head hg,
    renderSinglePattern_trace_head env cfg pl p head hg,
    renderSinglePattern_state env cfg pl p head hg,
    renderSinglePattern_graph env cfg pl p head hg,
    renderSinglePattern_trace_cleanSet env cfg pl p head hg, ?_, ?_, ?_⟩
  · intro pl2 p2 ps2 msg head2 hth
    exact renderAll_abort_head env cfg head2 pl2 p2 ps2 msg hth
  · intro env2 cfg2 pl0 p2 rest msg hs2 hh2 hf2 hpe2 hfiles hip hthr
    obtain ⟨pl6, hd, syncLogs, tail, hres, hpat, _, _, htr, htail⟩ :=
      buildAfterPre_full_shape env2 cfg2 true pl0 hs2 hpe2 hh2 hf2
    have hincr : incrementalBuildsEnabled env2 true = false := rfl
    have hth : renderSinglePatternThrow env2
        { p2 with compileState := CompileState.NEEDS_REBUILD } = some msg := by
      simp [renderSinglePatternThrow, hip, hthr]
    have habort := renderAll_abort_head env2 cfg2 hd pl6
      { p2 with compileState := CompileState.NEEDS_REBUILD }
      (markAllForRebuild rest) msg hth
    have hexc : (renderAll env2 cfg2 hd pl6
        (renderSetForBuild env2 (incrementalBuildsEnabled env2 true)
          env2.patternFiles)).2.2.2 = some msg := by
      rw [hincr, hfiles]
      exact habort.1
    refine ⟨by rw [buildPatterns_fst]; exact hres, ?_, ?_⟩
    · rw [buildPatterns_state, hpat, hincr, hfiles]
      exact habort.2.1
    · rw [buildPatterns_trace, htr, htail msg hexc]
      simp
  · intro env2 cfg2 del pl0 hrt hnp hres
    rw [buildPatterns_state]
    rw [buildPatterns_fst] at hres
    exact buildAfterPre_no_building env2 cfg2 del pl0 hrt hnp hres

/-- Witness for the amended C5: the normal-completion conjuncts at a concrete
NEEDS_REBUILD pattern, and the leak conjunct at the concrete build whose
render throws. -/
theorem compileState_building_contract_witness :
    (renderSinglePattern exEnv exCfg exState exPattern "h").1 = true ∧
    (renderSinglePattern exEnv exCfg exState exPattern "h").2.2.1.compileState =
      CompileState.CLEAN ∧
    (renderSinglePattern exEnv exCfg exState exPattern "h").2.1.graph.nodeState
      exPattern.relPath = some CompileState.CLEAN ∧
    (buildPatterns exEnvRenderThrow exCfg true exState).1 =
      BuildOutcome.resolved ∧
    ((buildPatterns exEnvRenderThrow exCfg true exState).2.1.patterns.head?.map
      Pattern.compileState) = some CompileState.BUILDING := by
  have h := compileState_building_contract exEnv exCfg exState exPattern "h"
    rfl rfl
  have hleak := (h.2.2.2.2.2.2.1 exEnvRenderThrow exCfg exState exPattern []
    "render failed" rfl rfl rfl rfl rfl rfl rfl)
  exact ⟨h.1, h.2.2.1, h.2.2.2.1, hleak.1, hleak.2.1⟩

/-- C9: a missing or unreadable structural-template set, or a missing user
head or foot meta-template, logs a descriptive error and terminates the
process with exit status 1; the trace of such a run contains no pattern file
write and no compile-state transition, so no pattern is rendered and no
pattern output is written. -/
theorem fatal_template_failures (env : Env) (cfg : Config) (del : Bool)
    (pl : PatternLabState) :
    (env.structuralOk = false →
      (buildPatterns env cfg del pl).1 = BuildOutcome.exited 1 ∧
      Effect.log essentialFileMsg ∈ (buildPatterns env cfg del pl).2.2 ∧
      Effect.exitProcess 1 ∈ (buildPatterns env cfg del pl).2.2 ∧
      allEffects isNotRender (buildPatterns env cfg del pl).2.2) ∧
    (env.structuralOk = true → env.pipelineError = none → env.headOk = false →
      (buildPatterns env cfg del pl).1 = BuildOutcome.exited 1 ∧
      Effect.log headMissingMsg ∈ (buildPatterns env cfg del pl).2.2 ∧
      Effect.exitProcess 1 ∈ (buildPatterns env cfg del pl).2.2 ∧
      allEffects isNotRender (buildPatterns env cfg del pl).2.2) ∧
    (env.structuralOk = true → env.pipelineError = none → env.headOk = true →
      env.footOk = false →
      (buildPatterns env cfg del pl).1 = BuildOutcome.exited 1 ∧
      Effect.log footMissingMsg ∈ (buildPatterns env cfg del pl).2.2 ∧
      Effect.exitProcess 1 ∈ (buildPatterns env cfg del pl).2.2 ∧
      allEffects isNotRender (buildPatterns env cfg del pl).2.2) := by
  refine ⟨?_, ?_, ?_⟩
  · intro hs
    obtain ⟨h1, h2⟩ := buildAfterPre_structuralFail env cfg del pl hs
    refine ⟨by rw [buildPatterns_fst]; exact h1, ?_, ?_, ?_⟩
    · rw [buildPatterns_trace, h2]
      simp
    · rw [buildPatterns_trace, h2]
      simp
    · rw [buildPatterns_trace]
      exact allEffects_append (buildPreEffects_noRender env cfg del)
        (isPassive_weaken_noRender
          (buildAfterPre_structuralFail_passive env cfg del pl hs))
  · intro hs hpe hhd
    obtain ⟨h1, h2⟩ := buildAfterPre_headFail env cfg del pl hs hpe hhd
    refine ⟨by rw [buildPatterns_fst]; exact h1, ?_, ?_, ?_⟩
    · rw [buildPatterns_trace, h2]
      simp
    · rw [buildPatterns_trace, h2]
      simp
    · rw [buildPatterns_trace]
      exact allEffects_append (buildPreEffects_noRender env cfg del)
        (isPassive_weaken_noRender
          (buildAfterPre_headFail_passive env cfg del pl hs hpe hhd))
  · intro hs hpe hhd hft
    obtain ⟨h1, h2⟩ := buildAfterPre_footFail env cfg del pl hs hpe hhd hft
    refine ⟨by rw [buildPatterns_fst]; exact h1, ?_, ?_, ?_⟩
    · rw [buildPatterns_trace, h2]
      simp
    · rw [buildPatterns_trace, h2]
      simp
    · rw [buildPatterns_trace]
      exact allEffects_append (buildPreEffects_noRender env cfg del)
        (isPassive_weaken_noRender
          (buildAfterPre_footFail_passive env cfg del pl hs hpe hhd hft))

/-- Witness for C9 at three concrete failing builds: structural templates
missing, user head missing, user foot missing. -/
theorem fatal_template_failures_witness :
    (buildPatterns exEnvNoStructural exCfg false exState).1 =
      BuildOutcome.exited 1 ∧
    (buildPatterns exEnvNoHead exCfg false exState).1 = BuildOutcome.exited 1 ∧
    (buildPatterns exEnvNoFoot exCfg false exState).1 = BuildOutcome.exited 1 :=
  ⟨((fatal_template_failures exEnvNoStructural exCfg false exState).1 rfl).1,
   ((fatal_template_failures exEnvNoHead exCfg false exState).2.1 rfl rfl rfl).1,
   ((fatal_template_failures exEnvNoFoot exCfg false exState).2.2
      rfl rfl rfl rfl).1⟩

theorem build_success_step (env : Env) (cfg : Config) (pl : PatternLabState)
    (cp : Bool) (hb : pl.isBusy = false) (hs : env.structuralOk = true)
    (hh : env.headOk = true) (hf : env.footOk = true)
    (hpe : env.pipelineError = none) :
    (build env cfg pl cp).1 = BuildOutcome.resolved ∧
    (build env cfg pl cp).2.1.isBusy = false ∧
    (build env cfg pl cp).2.1.listeners =
      pl.listeners ++ ["patternlab-pattern-change", "patternlab-global-change"] := by
  have hres : (buildPatterns env cfg cp { pl with isBusy := true }).1 =
      BuildOutcome.resolved := by
    rw [buildPatterns_fst]
    exact buildAfterPre_resolved env cfg cp _ hs hh hf hpe
  refine ⟨?_, ?_, ?_⟩
  · simp [build, hb, hres]
  · simp [build, hb, hres]
  · simp [build, hb, hres, buildPatterns_state, buildAfterPre_listeners]

theorem buildN_listeners_aux (env : Env) (cfg : Config) (cp : Bool)
    (hs : env.structuralOk = true) (hh : env.headOk = true)
    (hf : env.footOk = true) (hpe : env.pipelineError = none) :
    ∀ n, ∀ pl : PatternLabState, pl.isBusy = false →
      (buildN env cfg cp n pl).isBusy = false ∧
      listenerCount (buildN env cfg cp n pl) "patternlab-pattern-change" =
        listenerCount pl "patternlab-pattern-change" + n ∧
      listenerCount (buildN env cfg cp n pl) "patternlab-global-change" =
        listenerCount pl "patternlab-global-change" + n := by
  intro n
  induction n with
  | zero =>
    intro pl hb
    exact ⟨hb, rfl, rfl⟩
  | succ n ih =>
    intro pl hb
    obtain ⟨_, hb2, hl⟩ := build_success_step env cfg pl cp hb hs hh hf hpe
    obtain ⟨ihb, ih1, ih2⟩ := ih (build env cfg pl cp).2.1 hb2
    have hc1 : (["patternlab-pattern-change", "patternlab-global-change"] :
        List String).count "patternlab-pattern-change" = 1 := by decide
    have hc2 : (["patternlab-pattern-change", "patternlab-global-change"] :
        List String).count "patternlab-global-change" = 1 := by decide
    refine ⟨ihb, ?_, ?_⟩
    · show listenerCount (buildN env cfg cp n (build env cfg pl cp).2.1)
        "patternlab-pattern-change" = _
      rw [ih1]
      unfold listenerCount
      rw [hl, List.count_append, hc1]
      omega
    · show listenerCount (buildN env cfg cp n (build env cfg pl cp).2.1)
        "patternlab-global-change" = _
      rw [ih2]
      unfold listenerCount
      rw [hl, List.count_append, hc2]
      omega

/-- C10: every successful build registers one more listener for each of the
two rebuild events without removing the previous ones: a single successful
build appends exactly the two event registrations to the listener multiset,
and after n successful builds a change event fires n accumulated handlers. -/
theorem build_accumulates_listeners (env : Env) (cfg : Config) (cp : Bool)
    (pl : PatternLabState) (n : Nat) (hb : pl.isBusy = false)
    (hs : env.structuralOk = true) (hh : env.headOk = true)
    (hf : env.footOk = true) (hpe : env.pipelineError = none) :
    (build env cfg pl cp).2.1.listeners =
      pl.listeners ++ ["patternlab-pattern-change", "patternlab-global-change"] ∧
    listenerCount (buildN env cfg cp n pl) "patternlab-pattern-change" =
      listenerCount pl "patternlab-pattern-change" + n ∧
    listenerCount (buildN env cfg cp n pl) "patternlab-global-change" =
      listenerCount pl "patternlab-global-change" + n := by
  obtain ⟨_, _, hl⟩ := build_success_step env cfg pl cp hb hs hh hf hpe
  obtain ⟨_, h1, h2⟩ := buildN_listeners_aux env cfg cp hs hh hf hpe n pl hb
  exact ⟨hl, h1, h2⟩

/-- Witness for C10: after three successful builds from a fresh context, a
pattern-change event fires three accumulated handlers. -/
theorem build_accumulates_listeners_witness :
    listenerCount (buildN exEnv exCfg false 3 exState)
      "patternlab-pattern-change" = 3 := by
  have h := build_accumulates_listeners exEnv exCfg false exState 3
    rfl rfl rfl rfl rfl
  simpa [listenerCount, exState] using h.2.1

end PLab
